import Mathlib

/-!
# Verification of the klatt-syn cascade/parallel formant synthesizer core

Shallow embedding of `src/Klatt.ts` (the version with the `noise` glottal
source type, the `DifferencingFilter` class and the module-level `set*`
binder functions, which is the version the claims' line numbers refer to).

Modelling conventions:

* JavaScript `number` is modelled by `JsNum`: NaN, the two infinities, or an
  exact rational.  Rounding of IEEE doubles is not modelled; arithmetic on
  finite values is exact rational arithmetic, while NaN and infinity
  propagation follows JavaScript semantics.
* Transcendental library functions (`Math.sin`, `Math.cos`, `Math.exp`,
  `Math.sqrt`, `Math.pow`) and the ambient PRNG (`Math.random`) have no
  exact rational counterpart; they are supplied as an oracle environment
  `MathEnv` of rational-valued functions, lifted to `JsNum` with the
  JavaScript NaN/infinity conventions.  Every call site of a `Math.*`
  function in the source maps to the corresponding oracle.  `Math.random()`
  is a process-wide stream `rand : Nat -> Rat`; the generator state carries
  the current stream index.
* Mutation is modelled by explicit state passing; a method that can `throw`
  returns `Except KlattError _` (one error constructor per distinct throw
  site message in the source); a method that cannot throw returns its
  updated state directly.
* JavaScript object identity (used by the `FrameParms` re-use check in
  `generateFrame`) is modelled by tagging each `FrameParms` argument with a
  natural-number reference `ref`; two arguments are identical exactly when
  their references coincide.
-/

-- Batteries marks the core rational operations `@[irreducible]`, which
-- blocks `decide`-style evaluation of the model on concrete inputs; restore
-- the default reducibility for this file.
attribute [local semireducible] Rat.mul Rat.inv Rat.add Rat.sub

/-- A JavaScript `number`: NaN, +Infinity, -Infinity, or a finite value
(modelled as an exact rational; IEEE rounding is not modelled). -/
inductive JsNum where
  | nan    : JsNum
  | posInf : JsNum
  | negInf : JsNum
  | fin    : ℚ → JsNum
deriving DecidableEq, Repr, Inhabited

namespace JsNum

/-- JavaScript addition. -/
def jadd : JsNum → JsNum → JsNum
  | nan, _ => nan
  | _, nan => nan
  | posInf, posInf => posInf
  | posInf, negInf => nan
  | negInf, posInf => nan
  | negInf, negInf => negInf
  | posInf, fin _ => posInf
  | fin _, posInf => posInf
  | negInf, fin _ => negInf
  | fin _, negInf => negInf
  | fin a, fin b => fin (a + b)

/-- JavaScript unary minus (the sign of NaN is NaN; -0 is not modelled). -/
def jneg : JsNum → JsNum
  | nan => nan
  | posInf => negInf
  | negInf => posInf
  | fin a => fin (-a)

/-- JavaScript subtraction, `a - b = a + (-b)` (same special-value table). -/
def jsub (a b : JsNum) : JsNum := jadd a (jneg b)

/-- JavaScript multiplication. -/
def jmul : JsNum → JsNum → JsNum
  | nan, _ => nan
  | _, nan => nan
  | posInf, posInf => posInf
  | posInf, negInf => negInf
  | negInf, posInf => negInf
  | negInf, negInf => posInf
  | posInf, fin q => if q = 0 then nan else if 0 < q then posInf else negInf
  | fin q, posInf => if q = 0 then nan else if 0 < q then posInf else negInf
  | negInf, fin q => if q = 0 then nan else if 0 < q then negInf else posInf
  | fin q, negInf => if q = 0 then nan else if 0 < q then negInf else posInf
  | fin a, fin b => fin (a * b)

/-- JavaScript division (signed zero is not modelled: a finite value divided
by `0` gets the sign of the numerator, `0/0 = NaN`). -/
def jdiv : JsNum → JsNum → JsNum
  | nan, _ => nan
  | _, nan => nan
  | posInf, posInf => nan
  | posInf, negInf => nan
  | negInf, posInf => nan
  | negInf, negInf => nan
  | posInf, fin q => if 0 ≤ q then posInf else negInf
  | negInf, fin q => if 0 ≤ q then negInf else posInf
  | fin _, posInf => fin 0
  | fin _, negInf => fin 0
  | fin a, fin b =>
      if b = 0 then (if a = 0 then nan else if 0 < a then posInf else negInf)
      else fin (a / b)

/-- JavaScript `<` (false whenever an operand is NaN). -/
def jlt : JsNum → JsNum → Bool
  | nan, _ => false
  | _, nan => false
  | negInf, negInf => false
  | negInf, _ => true
  | _, posInf => true
  | posInf, _ => false
  | fin _, negInf => false
  | fin a, fin b => decide (a < b)

/-- JavaScript `<=` (false whenever an operand is NaN). -/
def jle : JsNum → JsNum → Bool
  | nan, _ => false
  | _, nan => false
  | negInf, _ => true
  | _, posInf => true
  | posInf, _ => false
  | fin _, negInf => false
  | fin a, fin b => decide (a ≤ b)

/-- JavaScript `>`. -/
def jgt (a b : JsNum) : Bool := jlt b a

/-- JavaScript `>=`. -/
def jge (a b : JsNum) : Bool := jle b a

/-- JavaScript `==` on two numbers (NaN compares unequal to everything). -/
def jeqb : JsNum → JsNum → Bool
  | nan, _ => false
  | _, nan => false
  | posInf, posInf => true
  | negInf, negInf => true
  | fin a, fin b => decide (a = b)
  | _, _ => false

/-- JavaScript truthiness of a number: `0` and NaN are falsy. -/
def truthy : JsNum → Bool
  | nan => false
  | fin q => decide (q ≠ 0)
  | _ => true

/-- JavaScript `isNaN`. -/
def isNaNB : JsNum → Bool
  | nan => true
  | _ => false

/-- JavaScript `isFinite`. -/
def isFiniteB : JsNum → Bool
  | fin _ => true
  | _ => false

/-- JavaScript `Math.round` (round half away from -Infinity). -/
def jround : JsNum → JsNum
  | nan => nan
  | posInf => posInf
  | negInf => negInf
  | fin q => fin ((⌊q + 1/2⌋ : ℤ) : ℚ)

/-- JavaScript `x ** 2` (exact squaring; `x * x`). -/
def jpow2 (x : JsNum) : JsNum := jmul x x

end JsNum

open JsNum

/-- Oracle environment for the transcendental `Math.*` functions and the
ambient `Math.random()` stream.  The claims proved below hold for every
environment; counterexamples instantiate it with concrete values that a
JavaScript runtime can produce. -/
structure MathEnv where
  pi    : ℚ
  sin   : ℚ → ℚ
  cos   : ℚ → ℚ
  exp   : ℚ → ℚ
  sqrt  : ℚ → ℚ
  pow10 : ℚ → ℚ
  powG  : ℚ → ℚ → ℚ
  rand  : ℕ → ℚ

/-- Lift of `Math.sin` (`sin` of an infinity or NaN is NaN). -/
def jsin (env : MathEnv) : JsNum → JsNum
  | .fin q => .fin (env.sin q)
  | _ => .nan

/-- Lift of `Math.cos` (`cos` of an infinity or NaN is NaN). -/
def jcos (env : MathEnv) : JsNum → JsNum
  | .fin q => .fin (env.cos q)
  | _ => .nan

/-- Lift of `Math.exp` (`exp(-Infinity) = 0`, `exp(Infinity) = Infinity`). -/
def jexp (env : MathEnv) : JsNum → JsNum
  | .fin q => .fin (env.exp q)
  | .posInf => .posInf
  | .negInf => .fin 0
  | .nan => .nan

/-- Lift of `Math.sqrt` (`sqrt` of a negative value or NaN is NaN). -/
def jsqrt (env : MathEnv) : JsNum → JsNum
  | .fin q => if q < 0 then .nan else .fin (env.sqrt q)
  | .posInf => .posInf
  | .negInf => .nan
  | .nan => .nan

/-- Lift of `Math.pow(10, _)` (`10 ** Infinity = Infinity`,
`10 ** -Infinity = 0`). -/
def jpow10 (env : MathEnv) : JsNum → JsNum
  | .fin q => .fin (env.pow10 q)
  | .posInf => .posInf
  | .negInf => .fin 0
  | .nan => .nan

/-- Lift of the binary `x ** y` for a non-constant exponent (only used for
the noise-amplitude compensation `(sampleRate/10000) ** 0.33`). -/
def jpowB (env : MathEnv) : JsNum → JsNum → JsNum
  | .fin a, .fin b => .fin (env.powG a b)
  | .posInf, .fin b => if 0 < b then .posInf else if b = 0 then .fin 1 else .fin 0
  | _, _ => .nan

/-- One distinct constructor per distinct `throw new Error(...)` message in
the source. -/
inductive KlattError where
  | invalidFilterParameters        : KlattError  -- LpFilter1.set
  | invalidResonatorParameters     : KlattError  -- Resonator.set
  | invalidResonatorPeakGain       : KlattError  -- Resonator.adjustPeakGain
  | invalidAntiResonatorParameters : KlattError  -- AntiResonator.set
  | frameParmsReused               : KlattError  -- Generator.generateFrame
  | undefinedGlottalSourceType     : KlattError  -- Generator.initGlottalSource
deriving DecidableEq, Repr

/-! ## Primitive filters (`LpFilter1`, `Resonator`, `AntiResonator`,
`DifferencingFilter`) -/

/-- A first-order IIR LP filter, `y[n] = a * x[n] + b * y[n-1]`.
Fields not assigned by the constructor are `undefined` in JavaScript and are
modelled as NaN. -/
structure LpFilter1 where
  sampleRate  : JsNum
  a           : JsNum
  b           : JsNum
  y1          : JsNum
  passthrough : Bool
  muted       : Bool
deriving DecidableEq, Repr, Inhabited

namespace LpFilter1

/-- `new LpFilter1(sampleRate)`. -/
def init (sampleRate : JsNum) : LpFilter1 :=
  { sampleRate := sampleRate, a := .nan, b := .nan, y1 := .fin 0,
    passthrough := true, muted := false }

/-- `LpFilter1.set(f, g, extraGain)` (the default argument `extraGain = 1`
is passed explicitly by callers of this model). -/
def set (env : MathEnv) (fl : LpFilter1) (f g extraGain : JsNum) :
    Except KlattError LpFilter1 :=
  if jle f (.fin 0) || jge f (jdiv fl.sampleRate (.fin 2)) || jle g (.fin 0) ||
      jge g (.fin 1) || !f.isFiniteB || !g.isFiniteB || !extraGain.isFiniteB then
    .error .invalidFilterParameters
  else
    let w := jdiv (jmul (jmul (.fin 2) (.fin env.pi)) f) fl.sampleRate
    let q := jdiv (jsub (.fin 1) (jmul (jpow2 g) (jcos env w)))
                  (jsub (.fin 1) (jpow2 g))
    let b := jsub q (jsqrt env (jsub (jpow2 q) (.fin 1)))
    let a := jmul (jsub (.fin 1) b) extraGain
    .ok { fl with b := b, a := a, passthrough := false, muted := false }

/-- `LpFilter1.setPassthrough()`. -/
def setPassthrough (fl : LpFilter1) : LpFilter1 :=
  { fl with passthrough := true, muted := false, y1 := .fin 0 }

/-- `LpFilter1.setMute()`. -/
def setMute (fl : LpFilter1) : LpFilter1 :=
  { fl with passthrough := false, muted := true, y1 := .fin 0 }

/-- `LpFilter1.step(x)`; returns the updated filter and the output sample. -/
def step (fl : LpFilter1) (x : JsNum) : LpFilter1 × JsNum :=
  if fl.passthrough then (fl, x)
  else if fl.muted then (fl, .fin 0)
  else
    let y := jadd (jmul fl.a x) (jmul fl.b fl.y1)
    ({ fl with y1 := y }, y)

end LpFilter1

/-- A Klatt resonator (second-order IIR filter),
`y[n] = a * x[n] + b * y[n-1] + c * y[n-2]`. -/
structure Resonator where
  sampleRate  : JsNum
  a           : JsNum
  b           : JsNum
  c           : JsNum
  y1          : JsNum
  y2          : JsNum
  r           : JsNum
  passthrough : Bool
  muted       : Bool
deriving DecidableEq, Repr, Inhabited

namespace Resonator

/-- `new Resonator(sampleRate)`. -/
def init (sampleRate : JsNum) : Resonator :=
  { sampleRate := sampleRate, a := .nan, b := .nan, c := .nan,
    y1 := .fin 0, y2 := .fin 0, r := .nan, passthrough := true, muted := false }

/-- `Resonator.set(f, bw, dcGain)` (the default argument `dcGain = 1` is
passed explicitly by callers of this model). -/
def set (env : MathEnv) (rs : Resonator) (f bw dcGain : JsNum) :
    Except KlattError Resonator :=
  if jlt f (.fin 0) || jge f (jdiv rs.sampleRate (.fin 2)) || jle bw (.fin 0) ||
      jle dcGain (.fin 0) || !f.isFiniteB || !bw.isFiniteB ||
      !dcGain.isFiniteB then
    .error .invalidResonatorParameters
  else
    let rr := jexp env (jdiv (jmul (jneg (.fin env.pi)) bw) rs.sampleRate)
    let w := jdiv (jmul (jmul (.fin 2) (.fin env.pi)) f) rs.sampleRate
    let c := jneg (jpow2 rr)
    let b := jmul (jmul (.fin 2) rr) (jcos env w)
    let a := jmul (jsub (jsub (.fin 1) b) c) dcGain
    .ok { rs with r := rr, c := c, b := b, a := a,
                  passthrough := false, muted := false }

/-- `Resonator.setPassthrough()`. -/
def setPassthrough (rs : Resonator) : Resonator :=
  { rs with passthrough := true, muted := false, y1 := .fin 0, y2 := .fin 0 }

/-- `Resonator.setMute()`. -/
def setMute (rs : Resonator) : Resonator :=
  { rs with passthrough := false, muted := true, y1 := .fin 0, y2 := .fin 0 }

/-- `Resonator.adjustImpulseGain(newA)`: assigns the coefficient `a`
unconditionally (no validation, no other mutation). -/
def adjustImpulseGain (rs : Resonator) (newA : JsNum) : Resonator :=
  { rs with a := newA }

/-- `Resonator.adjustPeakGain(peakGain)`: rejects a non-positive or
non-finite gain, otherwise assigns `a = peakGain * (1 - r)`. -/
def adjustPeakGain (rs : Resonator) (peakGain : JsNum) :
    Except KlattError Resonator :=
  if jle peakGain (.fin 0) || !peakGain.isFiniteB then
    .error .invalidResonatorPeakGain
  else
    .ok { rs with a := jmul peakGain (jsub (.fin 1) rs.r) }

/-- `Resonator.step(x)`; returns the updated filter and the output sample. -/
def step (rs : Resonator) (x : JsNum) : Resonator × JsNum :=
  if rs.passthrough then (rs, x)
  else if rs.muted then (rs, .fin 0)
  else
    let y := jadd (jadd (jmul rs.a x) (jmul rs.b rs.y1)) (jmul rs.c rs.y2)
    ({ rs with y2 := rs.y1, y1 := y }, y)

end Resonator

/-- A Klatt anti-resonator (second-order FIR filter),
`y[n] = a * x[n] + b * x[n-1] + c * x[n-2]`. -/
structure AntiResonator where
  sampleRate  : JsNum
  a           : JsNum
  b           : JsNum
  c           : JsNum
  x1          : JsNum
  x2          : JsNum
  passthrough : Bool
  muted       : Bool
deriving DecidableEq, Repr, Inhabited

namespace AntiResonator

/-- `new AntiResonator(sampleRate)`. -/
def init (sampleRate : JsNum) : AntiResonator :=
  { sampleRate := sampleRate, a := .nan, b := .nan, c := .nan,
    x1 := .fin 0, x2 := .fin 0, passthrough := true, muted := false }

/-- The intermediate `r = Math.exp(- Math.PI * bw / sampleRate)` of
`AntiResonator.set`. -/
def interR (env : MathEnv) (sampleRate bw : JsNum) : JsNum :=
  jexp env (jdiv (jmul (jneg (.fin env.pi)) bw) sampleRate)

/-- The intermediate `b0 = 2 * r * Math.cos(w)` of `AntiResonator.set`. -/
def interB0 (env : MathEnv) (sampleRate f bw : JsNum) : JsNum :=
  jmul (jmul (.fin 2) (interR env sampleRate bw))
       (jcos env (jdiv (jmul (jmul (.fin 2) (.fin env.pi)) f) sampleRate))

/-- The intermediate `c0 = - (r * r)` of `AntiResonator.set`. -/
def interC0 (env : MathEnv) (sampleRate bw : JsNum) : JsNum :=
  jneg (jmul (interR env sampleRate bw) (interR env sampleRate bw))

/-- The intermediate `a0 = 1 - b0 - c0` of `AntiResonator.set`. -/
def interA0 (env : MathEnv) (sampleRate f bw : JsNum) : JsNum :=
  jsub (jsub (.fin 1) (interB0 env sampleRate f bw)) (interC0 env sampleRate bw)

/-- `AntiResonator.set(f, bw)`.  When the derived `a0` compares `== 0` the
coefficients are zeroed and the method returns early, leaving the
passthrough/muted flags (and the delay state) unchanged. -/
def set (env : MathEnv) (ar : AntiResonator) (f bw : JsNum) :
    Except KlattError AntiResonator :=
  if jle f (.fin 0) || jge f (jdiv ar.sampleRate (.fin 2)) || jle bw (.fin 0) ||
      !f.isFiniteB || !bw.isFiniteB then
    .error .invalidAntiResonatorParameters
  else
    let c0 := interC0 env ar.sampleRate bw
    let b0 := interB0 env ar.sampleRate f bw
    let a0 := interA0 env ar.sampleRate f bw
    if jeqb a0 (.fin 0) then
      .ok { ar with a := .fin 0, b := .fin 0, c := .fin 0 }
    else
      .ok { ar with a := jdiv (.fin 1) a0, b := jdiv (jneg b0) a0,
                    c := jdiv (jneg c0) a0, passthrough := false,
                    muted := false }

/-- `AntiResonator.setPassthrough()`. -/
def setPassthrough (ar : AntiResonator) : AntiResonator :=
  { ar with passthrough := true, muted := false, x1 := .fin 0, x2 := .fin 0 }

/-- `AntiResonator.setMute()`. -/
def setMute (ar : AntiResonator) : AntiResonator :=
  { ar with passthrough := false, muted := true, x1 := .fin 0, x2 := .fin 0 }

/-- `AntiResonator.step(x)`; returns the updated filter and the output. -/
def step (ar : AntiResonator) (x : JsNum) : AntiResonator × JsNum :=
  if ar.passthrough then (ar, x)
  else if ar.muted then (ar, .fin 0)
  else
    let y := jadd (jadd (jmul ar.a x) (jmul ar.b ar.x1)) (jmul ar.c ar.x2)
    ({ ar with x2 := ar.x1, x1 := x }, y)

/-- Runs `AntiResonator.step` over a list of inputs, collecting outputs. -/
def run (ar : AntiResonator) : List JsNum → AntiResonator × List JsNum
  | [] => (ar, [])
  | x :: xs =>
      let s := ar.step x
      let r := run s.1 xs
      (r.1, s.2 :: r.2)

end AntiResonator

/-- A differencing filter (first-order FIR HP), `y[n] = x[n] - x[n-1]`. -/
structure DifferencingFilter where
  x1 : JsNum
deriving DecidableEq, Repr, Inhabited

namespace DifferencingFilter

/-- `new DifferencingFilter()`. -/
def init : DifferencingFilter := { x1 := .fin 0 }

/-- `DifferencingFilter.step(x)`. -/
def step (df : DifferencingFilter) (x : JsNum) : DifferencingFilter × JsNum :=
  (⟨x⟩, jsub x df.x1)

end DifferencingFilter

/-! ## Noise and glottal sources -/

/-- `getWhiteNoise()`: one draw from the ambient `Math.random()` stream,
scaled to -1 .. 1; returns the value and the advanced stream index. -/
def getWhiteNoise (env : MathEnv) (idx : ℕ) : JsNum × ℕ :=
  (.fin (env.rand idx * 2 - 1), idx + 1)

/-- An LP-filtered noise source (`LpNoiseSource`). -/
structure LpNoiseSource where
  lpFilter : LpFilter1
deriving DecidableEq, Repr, Inhabited

namespace LpNoiseSource

/-- `new LpNoiseSource(sampleRate)`: reproduces the legacy response
(b = 0.75 at 10 kHz) at the configured rate.  The gain computation
`(1 - oldB) / Math.sqrt(1 - 2 * oldB * cos(2 pi f / oldSampleRate) + oldB^2)`
runs on plain numbers; it is evaluated here in `JsNum` with the oracles. -/
def init (env : MathEnv) (sampleRate : JsNum) :
    Except KlattError LpNoiseSource := do
  let oldB : JsNum := .fin (3/4)
  let oldSampleRate : JsNum := .fin 10000
  let f : JsNum := .fin 1000
  let g := jdiv (jsub (.fin 1) oldB)
      (jsqrt env (jadd (jsub (.fin 1)
          (jmul (jmul (.fin 2) oldB)
            (jcos env (jdiv (jmul (jmul (.fin 2) (.fin env.pi)) f)
                            oldSampleRate))))
        (jpow2 oldB)))
  let extraGain := jmul (.fin (5/2))
      (jpowB env (jdiv sampleRate (.fin 10000)) (.fin (33/100)))
  let fl ← (LpFilter1.init sampleRate).set env f g extraGain
  .ok { lpFilter := fl }

/-- `LpNoiseSource.getNext()`: filtered white noise; also returns the
advanced `Math.random()` stream index. -/
def getNext (env : MathEnv) (ns : LpNoiseSource) (idx : ℕ) :
    (LpNoiseSource × ℕ) × JsNum :=
  let xi := getWhiteNoise env idx
  let fy := ns.lpFilter.step xi.1
  (({ lpFilter := fy.1 }, xi.2), fy.2)

end LpNoiseSource

/-- `ImpulsiveGlottalSource`: a band-limited pulse doublet through a
resonator used as an LP filter. -/
structure ImpulsiveGlottalSource where
  sampleRate       : JsNum
  resonator        : Option Resonator
  positionInPeriod : JsNum
deriving DecidableEq, Repr, Inhabited

namespace ImpulsiveGlottalSource

/-- `new ImpulsiveGlottalSource(sampleRate)` (`positionInPeriod` is left
`undefined`, modelled as NaN). -/
def init (sampleRate : JsNum) : ImpulsiveGlottalSource :=
  { sampleRate := sampleRate, resonator := none, positionInPeriod := .nan }

/-- `ImpulsiveGlottalSource.startPeriod(openPhaseLength)`. -/
def startPeriod (env : MathEnv) (s : ImpulsiveGlottalSource)
    (openPhaseLength : JsNum) : Except KlattError ImpulsiveGlottalSource :=
  if !openPhaseLength.truthy then
    .ok { s with resonator := none }
  else do
    let r0 := s.resonator.getD (Resonator.init s.sampleRate)
    let bw := jdiv s.sampleRate openPhaseLength
    let r1 ← r0.set env (.fin 0) bw (.fin 1)
    let r2 := r1.adjustImpulseGain (.fin 1)
    .ok { s with resonator := some r2, positionInPeriod := .fin 0 }

/-- `ImpulsiveGlottalSource.getNext()`. -/
def getNext (s : ImpulsiveGlottalSource) : ImpulsiveGlottalSource × JsNum :=
  match s.resonator with
  | none => (s, .fin 0)
  | some r =>
      let pulse : JsNum :=
        if jeqb s.positionInPeriod (.fin 1) then .fin 1
        else if jeqb s.positionInPeriod (.fin 2) then .fin (-1)
        else .fin 0
      let ry := r.step pulse
      ({ s with resonator := some ry.1,
                positionInPeriod := jadd s.positionInPeriod (.fin 1) }, ry.2)

end ImpulsiveGlottalSource

/-- `NaturalGlottalSource` (KLGLOTT88 polynomial model). -/
structure NaturalGlottalSource where
  x                : JsNum
  a                : JsNum
  b                : JsNum
  openPhaseLength  : JsNum
  positionInPeriod : JsNum
deriving DecidableEq, Repr, Inhabited

namespace NaturalGlottalSource

/-- `NaturalGlottalSource.startPeriod(openPhaseLength)` (overwrites every
field, so the previous state is not read). -/
def startPeriod (_s : NaturalGlottalSource) (openPhaseLength : JsNum) :
    NaturalGlottalSource :=
  let amplification : JsNum := .fin 5
  let b := jneg (jdiv amplification (jpow2 openPhaseLength))
  let a := jdiv (jmul (jneg b) openPhaseLength) (.fin 3)
  { x := .fin 0, a := a, b := b, openPhaseLength := openPhaseLength,
    positionInPeriod := .fin 0 }

/-- `new NaturalGlottalSource()` calls `startPeriod(0)`. -/
def init : NaturalGlottalSource :=
  startPeriod ⟨.nan, .nan, .nan, .nan, .nan⟩ (.fin 0)

/-- `NaturalGlottalSource.getNext()` (note the post-increment: the old
position is compared, the position is advanced in both branches). -/
def getNext (s : NaturalGlottalSource) : NaturalGlottalSource × JsNum :=
  let pos' := jadd s.positionInPeriod (.fin 1)
  if jge s.positionInPeriod s.openPhaseLength then
    ({ s with positionInPeriod := pos', x := .fin 0 }, .fin 0)
  else
    let a' := jadd s.a s.b
    let x' := jadd s.x a'
    ({ s with positionInPeriod := pos', a := a', x := x' }, x')

end NaturalGlottalSource

/-! ## Frequency modulation and dB conversion -/

/-- `performFrequencyModulation(f0, flutterLevel, time)`. -/
def performFrequencyModulation (env : MathEnv) (f0 flutterLevel time : JsNum) :
    JsNum :=
  if jle flutterLevel (.fin 0) then f0
  else
    let w := jmul (jmul (.fin 2) (.fin env.pi)) time
    let a := jadd (jadd (jsin env (jmul (.fin (127/10)) w))
                        (jsin env (jmul (.fin (71/10)) w)))
                  (jsin env (jmul (.fin (47/10)) w))
    jmul f0 (jadd (.fin 1) (jdiv (jmul a flutterLevel) (.fin 50)))

/-- `dbToLin(db)` as used inside the generator: oracle-valued model of
`Math.pow(10, db / 20)`. -/
def dbToLin (env : MathEnv) (db : JsNum) : JsNum :=
  if jle db (.fin (-99)) || db.isNaNB then .fin 0
  else jpow10 env (jdiv db (.fin 20))

/-- Real-valued model of `Math.pow(10, _)` on the exponent `db / 20`,
used to state exact-value claims about `dbToLin`: a finite exponent `e`
gives the real `10 ^ e`, `Infinity` gives the top element, `-Infinity`
gives `0`.  (A NaN exponent cannot reach this function inside
`dbToLinReal`: the NaN guard already returned `0`.) -/
noncomputable def jsPow10Real : JsNum → EReal
  | .fin e => (((10 : ℝ) ^ ((e : ℝ)) : ℝ) : EReal)
  | .posInf => ⊤
  | .negInf => ((0 : ℝ) : EReal)
  | .nan => ((0 : ℝ) : EReal)

/-- `dbToLin(db)` with the power function interpreted over the extended
reals (for the exact-value claims; the structure mirrors the source:
`db <= -99 || isNaN(db)` gives `0`, otherwise `Math.pow(10, db / 20)`). -/
noncomputable def dbToLinReal (db : JsNum) : EReal :=
  if jle db (.fin (-99)) || db.isNaNB then ((0 : ℝ) : EReal)
  else jsPow10Real (jdiv db (.fin 20))

/-! ## Parameter records and generator state -/

/-- `maxOralFormants = 6`. -/
def maxOralFormants : ℕ := 6

/-- `MainParms`: sample rate and glottal source kind.  The source's
`GlottalSourceType` is a TypeScript `const enum`, i.e. a plain number at
runtime (`impulsive = 0`, `natural = 1`, `noise = 2`); out-of-range values
can be passed by callers, so the kind is modelled as a natural number. -/
structure MainParms where
  sampleRate        : JsNum
  glottalSourceType : ℕ
deriving DecidableEq, Repr

/-- `FrameParms` (one record per sound frame; NaN marks absent values). -/
structure FrameParms where
  duration             : JsNum
  f0                   : JsNum
  flutterLevel         : JsNum
  openPhaseRatio       : JsNum
  breathinessDb        : JsNum
  tiltDb               : JsNum
  gainDb               : JsNum
  nasalFormantFreq     : JsNum
  nasalFormantBw       : JsNum
  oralFormantFreq      : List JsNum
  oralFormantBw        : List JsNum
  cascadeEnabled       : Bool
  cascadeVoicingDb     : JsNum
  cascadeAspirationDb  : JsNum
  cascadeAspirationMod : JsNum
  nasalAntiformantFreq : JsNum
  nasalAntiformantBw   : JsNum
  parallelEnabled      : Bool
  parallelVoicingDb    : JsNum
  parallelAspirationDb : JsNum
  parallelAspirationMod : JsNum
  fricationDb          : JsNum
  fricationMod         : JsNum
  parallelBypassDb     : JsNum
  nasalFormantDb       : JsNum
  oralFormantDb        : List JsNum
deriving DecidableEq, Repr

/-- A `FrameParms` record with every numeric field `undefined`/NaN and both
branches disabled; stands for reads of fields that the source never
initialises. -/
def defaultFrameParms : FrameParms :=
  { duration := .nan, f0 := .nan, flutterLevel := .nan, openPhaseRatio := .nan,
    breathinessDb := .nan, tiltDb := .nan, gainDb := .nan,
    nasalFormantFreq := .nan, nasalFormantBw := .nan,
    oralFormantFreq := [], oralFormantBw := [],
    cascadeEnabled := false, cascadeVoicingDb := .nan,
    cascadeAspirationDb := .nan, cascadeAspirationMod := .nan,
    nasalAntiformantFreq := .nan, nasalAntiformantBw := .nan,
    parallelEnabled := false, parallelVoicingDb := .nan,
    parallelAspirationDb := .nan, parallelAspirationMod := .nan,
    fricationDb := .nan, fricationMod := .nan, parallelBypassDb := .nan,
    nasalFormantDb := .nan, oralFormantDb := [] }

instance : Inhabited FrameParms := ⟨defaultFrameParms⟩

/-- A `FrameParms` argument together with its JavaScript object reference
(`ref`); `generateFrame`'s re-use check compares references. -/
structure FpRef where
  ref   : ℕ
  parms : FrameParms
deriving DecidableEq, Repr

/-- `FrameState`: linear gains derived from the active frame parameters.
The constructor creates it as an empty object (`<FrameState>{}`); its
fields are `undefined` until the first period boundary, modelled as NaN. -/
structure FrameState where
  breathinessLin        : JsNum
  gainLin               : JsNum
  cascadeVoicingLin     : JsNum
  cascadeAspirationLin  : JsNum
  parallelVoicingLin    : JsNum
  parallelAspirationLin : JsNum
  fricationLin          : JsNum
  parallelBypassLin     : JsNum
deriving DecidableEq, Repr

/-- The all-`undefined` initial `FrameState`. -/
def initialFrameState : FrameState :=
  { breathinessLin := .nan, gainLin := .nan, cascadeVoicingLin := .nan,
    cascadeAspirationLin := .nan, parallelVoicingLin := .nan,
    parallelAspirationLin := .nan, fricationLin := .nan,
    parallelBypassLin := .nan }

/-- `PeriodState` (the source declares an `lpNoise` field that is never
written; it stays `undefined`). -/
structure PeriodState where
  f0               : JsNum
  periodLength     : JsNum
  openPhaseLength  : JsNum
  positionInPeriod : JsNum
  lpNoise          : JsNum
deriving DecidableEq, Repr

/-- A `PeriodState` fresh from `<PeriodState>{}` (all fields undefined). -/
def emptyPeriodState : PeriodState :=
  { f0 := .nan, periodLength := .nan, openPhaseLength := .nan,
    positionInPeriod := .nan, lpNoise := .nan }

/-- The state of a `Generator` object.  The JavaScript closure
`this.glottalSource` is determined by `mParms.glottalSourceType` (set once
in `initGlottalSource`), so the dispatch is performed on the type tag
instead of storing a function. -/
structure GenState where
  mParms               : MainParms
  fParms               : Option FpRef   -- active; undefined until first adoption
  newFParms            : Option FpRef   -- pending until the next period boundary
  fState               : FrameState
  pState               : Option PeriodState
  absPosition          : JsNum
  tiltFilter           : LpFilter1
  outputLpFilter       : Resonator
  flutterTimeOffset    : JsNum
  impulsiveGSource     : Option ImpulsiveGlottalSource
  naturalGSource       : Option NaturalGlottalSource
  aspirationSourceCasc : LpNoiseSource
  aspirationSourcePar  : LpNoiseSource
  fricationSourcePar   : LpNoiseSource
  nasalFormantCasc     : Resonator
  nasalAntiformantCasc : AntiResonator
  oralFormantCasc      : List Resonator
  nasalFormantPar      : Resonator
  oralFormantPar       : List Resonator
  differencingFilterPar : DifferencingFilter
  randIdx              : ℕ              -- position in the ambient Math.random() stream
deriving DecidableEq, Repr

namespace GenState

/-- The value of `this.fParms` as read by the engine (reads happen only
after the first adoption, so the default is never observable). -/
def fp (g : GenState) : FrameParms :=
  (g.fParms.map FpRef.parms).getD defaultFrameParms

/-- The value of `this.pState` as read by the per-sample code (reads happen
only after `startNewPeriod` created it). -/
def ps (g : GenState) : PeriodState :=
  g.pState.getD emptyPeriodState

end GenState

/-! ## Frame-parameter binder (module-level `set*` functions) -/

/-- `setTiltFilter(tiltFilter, tiltDb)`. -/
def setTiltFilter (env : MathEnv) (tiltFilter : LpFilter1) (tiltDb : JsNum) :
    Except KlattError LpFilter1 :=
  if !tiltDb.truthy then .ok tiltFilter.setPassthrough
  else tiltFilter.set env (.fin 3000) (dbToLin env (jneg tiltDb)) (.fin 1)

/-- `setNasalFormantCasc(nasalFormantCasc, fParms)`. -/
def setNasalFormantCasc (env : MathEnv) (nasalFormantCasc : Resonator)
    (fParms : FrameParms) : Except KlattError Resonator :=
  if fParms.nasalFormantFreq.truthy && fParms.nasalFormantBw.truthy then
    nasalFormantCasc.set env fParms.nasalFormantFreq fParms.nasalFormantBw
      (.fin 1)
  else .ok nasalFormantCasc.setPassthrough

/-- `setNasalAntiformantCasc(nasalAntiformantCasc, fParms)`. -/
def setNasalAntiformantCasc (env : MathEnv)
    (nasalAntiformantCasc : AntiResonator) (fParms : FrameParms) :
    Except KlattError AntiResonator :=
  if fParms.nasalAntiformantFreq.truthy && fParms.nasalAntiformantBw.truthy then
    nasalAntiformantCasc.set env fParms.nasalAntiformantFreq
      fParms.nasalAntiformantBw
  else .ok nasalAntiformantCasc.setPassthrough

/-- `setOralFormantCasc(oralFormantCasc, fParms, i)` (an index beyond the
supplied arrays reads as NaN). -/
def setOralFormantCasc (env : MathEnv) (oralFormantCasc : Resonator)
    (fParms : FrameParms) (i : ℕ) : Except KlattError Resonator :=
  let f := fParms.oralFormantFreq.getD i .nan
  let bw := fParms.oralFormantBw.getD i .nan
  if f.truthy && bw.truthy then oralFormantCasc.set env f bw (.fin 1)
  else .ok oralFormantCasc.setPassthrough

/-- `setNasalFormantPar(nasalFormantPar, fParms)`. -/
def setNasalFormantPar (env : MathEnv) (nasalFormantPar : Resonator)
    (fParms : FrameParms) : Except KlattError Resonator :=
  if fParms.nasalFormantFreq.truthy && fParms.nasalFormantBw.truthy &&
      (dbToLin env fParms.nasalFormantDb).truthy then do
    let r1 ← nasalFormantPar.set env fParms.nasalFormantFreq
      fParms.nasalFormantBw (.fin 1)
    r1.adjustPeakGain (dbToLin env fParms.nasalFormantDb)
  else .ok nasalFormantPar.setMute

/-- `setOralFormantPar(oralFormantPar, mParms, fParms, i)`. -/
def setOralFormantPar (env : MathEnv) (oralFormantPar : Resonator)
    (mParms : MainParms) (fParms : FrameParms) (i : ℕ) :
    Except KlattError Resonator :=
  let formant := i + 1
  let f := fParms.oralFormantFreq.getD i .nan
  let bw := fParms.oralFormantBw.getD i .nan
  let db := fParms.oralFormantDb.getD i .nan
  let peakGain := dbToLin env db
  if f.truthy && bw.truthy && peakGain.truthy then do
    let r1 ← oralFormantPar.set env f bw (.fin 1)
    let w := jdiv (jmul (jmul (.fin 2) (.fin env.pi)) f) mParms.sampleRate
    let diffGain := jsqrt env (jsub (.fin 2) (jmul (.fin 2) (jcos env w)))
    let filterGain := if 2 ≤ formant then jdiv peakGain diffGain else peakGain
    r1.adjustPeakGain filterGain
  else .ok oralFormantPar.setMute

/-! ## Generator -/

/-- Reads the resonator at index `i` (the source's arrays always hold
`maxOralFormants` elements), applies an update, writes it back. -/
def updResAt (rs : List Resonator) (i : ℕ)
    (f : Resonator → Except KlattError Resonator) :
    Except KlattError (List Resonator) := do
  let r' ← f (rs.getD i default)
  .ok (rs.set i r')

/-- Steps the resonator at index `i` with input `x`; returns the updated
list and the output sample. -/
def stepResAt (rs : List Resonator) (i : ℕ) (x : JsNum) :
    List Resonator × JsNum :=
  let ry := (rs.getD i default).step x
  (rs.set i ry.1, ry.2)

namespace GenState

/-- `Generator.startUsingNewFrameParameters()` (the two `for` loops over
`maxOralFormants = 6` indices are unrolled). -/
def startUsingNewFrameParameters (env : MathEnv) (g : GenState) :
    Except KlattError GenState := do
  let fParms := g.fp
  let fs1 := { g.fState with
    breathinessLin := dbToLin env fParms.breathinessDb,
    gainLin := dbToLin env fParms.gainDb }
  let tilt ← setTiltFilter env g.tiltFilter fParms.tiltDb
  -- Adjust cascade branch:
  let fs2 := { fs1 with
    cascadeVoicingLin := dbToLin env fParms.cascadeVoicingDb,
    cascadeAspirationLin := dbToLin env fParms.cascadeAspirationDb }
  let nfc ← setNasalFormantCasc env g.nasalFormantCasc fParms
  let nafc ← setNasalAntiformantCasc env g.nasalAntiformantCasc fParms
  let oc0 := g.oralFormantCasc
  let oc1 ← updResAt oc0 0 (fun r => setOralFormantCasc env r fParms 0)
  let oc2 ← updResAt oc1 1 (fun r => setOralFormantCasc env r fParms 1)
  let oc3 ← updResAt oc2 2 (fun r => setOralFormantCasc env r fParms 2)
  let oc4 ← updResAt oc3 3 (fun r => setOralFormantCasc env r fParms 3)
  let oc5 ← updResAt oc4 4 (fun r => setOralFormantCasc env r fParms 4)
  let oc6 ← updResAt oc5 5 (fun r => setOralFormantCasc env r fParms 5)
  -- Adjust parallel branch:
  let fs3 := { fs2 with
    parallelVoicingLin := dbToLin env fParms.parallelVoicingDb,
    parallelAspirationLin := dbToLin env fParms.parallelAspirationDb,
    fricationLin := dbToLin env fParms.fricationDb,
    parallelBypassLin := dbToLin env fParms.parallelBypassDb }
  let nfp ← setNasalFormantPar env g.nasalFormantPar fParms
  let op0 := g.oralFormantPar
  let op1 ← updResAt op0 0 (fun r => setOralFormantPar env r g.mParms fParms 0)
  let op2 ← updResAt op1 1 (fun r => setOralFormantPar env r g.mParms fParms 1)
  let op3 ← updResAt op2 2 (fun r => setOralFormantPar env r g.mParms fParms 2)
  let op4 ← updResAt op3 3 (fun r => setOralFormantPar env r g.mParms fParms 3)
  let op5 ← updResAt op4 4 (fun r => setOralFormantPar env r g.mParms fParms 4)
  let op6 ← updResAt op5 5 (fun r => setOralFormantPar env r g.mParms fParms 5)
  .ok { g with fState := fs3, tiltFilter := tilt, nasalFormantCasc := nfc,
               nasalAntiformantCasc := nafc, oralFormantCasc := oc6,
               nasalFormantPar := nfp, oralFormantPar := op6 }

/-- `Generator.startGlottalSourcePeriod()`.  The `switch` has cases for
`impulsive` and `natural` only; every other kind (including `noise`) falls
through without any action and without any guard. -/
def startGlottalSourcePeriod (env : MathEnv) (g : GenState) :
    Except KlattError GenState :=
  match g.mParms.glottalSourceType with
  | 0 => do
      let s ← (g.impulsiveGSource.getD
        (ImpulsiveGlottalSource.init g.mParms.sampleRate)).startPeriod env
        g.ps.openPhaseLength
      .ok { g with impulsiveGSource := some s }
  | 1 =>
      let s := (g.naturalGSource.getD NaturalGlottalSource.init).startPeriod
        g.ps.openPhaseLength
      .ok { g with naturalGSource := some s }
  | _ => .ok g

/-- `Generator.startNewPeriod()`. -/
def startNewPeriod (env : MathEnv) (g : GenState) :
    Except KlattError GenState := do
  let g1 ← match g.newFParms with
    | some nf =>
        -- New frame parameters are only activated at the start of a period.
        startUsingNewFrameParameters env
          { g with fParms := some nf, newFParms := none }
    | none => .ok g
  let ps0 := g1.pState.getD emptyPeriodState
  let fParms := g1.fp
  let flutterTime := jadd (jdiv g1.absPosition g1.mParms.sampleRate)
                          g1.flutterTimeOffset
  let f0 := performFrequencyModulation env fParms.f0 fParms.flutterLevel
              flutterTime
  let periodLength :=
    if jgt f0 (.fin 0) then jround (jdiv g1.mParms.sampleRate f0) else .fin 1
  let openPhaseLength :=
    if jgt periodLength (.fin 1) then
      jround (jmul periodLength fParms.openPhaseRatio)
    else .fin 0
  let g2 := { g1 with pState := some { ps0 with
    f0 := f0, periodLength := periodLength,
    openPhaseLength := openPhaseLength, positionInPeriod := .fin 0 } }
  startGlottalSourcePeriod env g2

/-- The per-sample glottal source draw (`this.glottalSource()`), a
dispatch on the kind chosen at construction.  For an out-of-range kind the
JavaScript closure would be `undefined` and the call would fail; such a
generator cannot be constructed (`initGlottalSource` throws), so that arm
returns NaN. -/
def glottalSourceNext (env : MathEnv) (g : GenState) : GenState × JsNum :=
  match g.mParms.glottalSourceType with
  | 0 =>
      let sv := (g.impulsiveGSource.getD
        (ImpulsiveGlottalSource.init g.mParms.sampleRate)).getNext
      ({ g with impulsiveGSource := some sv.1 }, sv.2)
  | 1 =>
      let sv := (g.naturalGSource.getD NaturalGlottalSource.init).getNext
      ({ g with naturalGSource := some sv.1 }, sv.2)
  | 2 =>
      let vi := getWhiteNoise env g.randIdx
      ({ g with randIdx := vi.2 }, vi.1)
  | _ => (g, .nan)

/-- `Generator.computeCascadeBranch(voice)` (loop over the six cascade
formants unrolled). -/
def computeCascadeBranch (env : MathEnv) (g : GenState) (voice : JsNum) :
    GenState × JsNum :=
  let fParms := g.fp
  let fState := g.fState
  let pState := g.ps
  let cascadeVoice := jmul voice fState.cascadeVoicingLin
  let currentAspirationMod :=
    if jge pState.positionInPeriod (jdiv pState.periodLength (.fin 2)) then
      fParms.cascadeAspirationMod
    else .fin 0
  let asp := g.aspirationSourceCasc.getNext env g.randIdx
  let aspiration :=
    jmul (jmul asp.2 fState.cascadeAspirationLin)
         (jsub (.fin 1) currentAspirationMod)
  let v0 := jadd cascadeVoice aspiration
  let s1 := g.nasalAntiformantCasc.step v0
  let s2 := g.nasalFormantCasc.step s1.2
  let s3 := stepResAt g.oralFormantCasc 0 s2.2
  let s4 := stepResAt s3.1 1 s3.2
  let s5 := stepResAt s4.1 2 s4.2
  let s6 := stepResAt s5.1 3 s5.2
  let s7 := stepResAt s6.1 4 s6.2
  let s8 := stepResAt s7.1 5 s7.2
  ({ g with aspirationSourceCasc := asp.1.1, randIdx := asp.1.2,
            nasalAntiformantCasc := s1.1, nasalFormantCasc := s2.1,
            oralFormantCasc := s8.1 }, s8.2)

/-- `Generator.computeParallelBranch(voice)` (loop over F2..F6 unrolled;
the alternating sign is `+1` for an even array index and `-1` for an odd
array index, as in the source). -/
def computeParallelBranch (env : MathEnv) (g : GenState) (voice : JsNum) :
    GenState × JsNum :=
  let fParms := g.fp
  let fState := g.fState
  let pState := g.ps
  let parallelVoice := jmul voice fState.parallelVoicingLin
  let currentAspirationMod :=
    if jge pState.positionInPeriod (jdiv pState.periodLength (.fin 2)) then
      fParms.parallelAspirationMod
    else .fin 0
  let asp := g.aspirationSourcePar.getNext env g.randIdx
  let aspiration :=
    jmul (jmul asp.2 fState.parallelAspirationLin)
         (jsub (.fin 1) currentAspirationMod)
  let source := jadd parallelVoice aspiration
  let dfr := g.differencingFilterPar.step source
  let sourceDifference := dfr.2
  let currentFricationMod :=
    if jge pState.positionInPeriod (jdiv pState.periodLength (.fin 2)) then
      fParms.fricationMod
    else .fin 0
  let fric := g.fricationSourcePar.getNext env asp.1.2
  let fricationNoise :=
    jmul (jmul fric.2 fState.fricationLin) (jsub (.fin 1) currentFricationMod)
  let source2 := jadd sourceDifference fricationNoise
  let v0 : JsNum := .fin 0
  let n0 := g.nasalFormantPar.step source
  let v1 := jadd v0 n0.2
  let p1 := stepResAt g.oralFormantPar 0 source
  let v2 := jadd v1 p1.2
  let p2 := stepResAt p1.1 1 source2
  let v3 := jadd v2 (jmul (.fin (-1)) p2.2)
  let p3 := stepResAt p2.1 2 source2
  let v4 := jadd v3 (jmul (.fin 1) p3.2)
  let p4 := stepResAt p3.1 3 source2
  let v5 := jadd v4 (jmul (.fin (-1)) p4.2)
  let p5 := stepResAt p4.1 4 source2
  let v6 := jadd v5 (jmul (.fin 1) p5.2)
  let p6 := stepResAt p5.1 5 source2
  let v7 := jadd v6 (jmul (.fin (-1)) p6.2)
  let v8 := jadd v7 (jmul fState.parallelBypassLin source2)
  ({ g with aspirationSourcePar := asp.1.1, fricationSourcePar := fric.1.1,
            randIdx := fric.1.2, differencingFilterPar := dfr.1,
            nasalFormantPar := n0.1, oralFormantPar := p6.1 }, v8)

/-- `Generator.computeNextOutputSignalSample()`. -/
def computeNextOutputSignalSample (env : MathEnv) (g : GenState) :
    GenState × JsNum :=
  let fParms := g.fp
  let fState := g.fState
  let pState := g.ps
  let gv := glottalSourceNext env g
  let tv := gv.1.tiltFilter.step gv.2
  let g2 := { gv.1 with tiltFilter := tv.1 }
  let bv :=
    if jlt pState.positionInPeriod pState.openPhaseLength then
      let wn := getWhiteNoise env g2.randIdx
      ({ g2 with randIdx := wn.2 },
       jadd tv.2 (jmul wn.1 fState.breathinessLin))
    else (g2, tv.2)
  let cv :=
    if fParms.cascadeEnabled then computeCascadeBranch env bv.1 bv.2
    else (bv.1, .fin 0)
  let pv :=
    if fParms.parallelEnabled then computeParallelBranch env cv.1 bv.2
    else (cv.1, .fin 0)
  let out0 := jadd cv.2 pv.2
  let ov := pv.1.outputLpFilter.step out0
  ({ pv.1 with outputLpFilter := ov.1 }, jmul ov.2 fState.gainLin)

/-- The boundary test of the sample loop:
`!this.pState || positionInPeriod >= periodLength`. -/
def periodBoundary (g : GenState) : Bool :=
  match g.pState with
  | none => true
  | some ps => jge ps.positionInPeriod ps.periodLength

/-- The tail of one loop iteration of `generateFrame`:
`this.pState.positionInPeriod++; this.absPosition++;` applied after the
sample computation. -/
def advanceCounters (gs : GenState × JsNum) : GenState × JsNum :=
  let ps := gs.1.ps
  ({ gs.1 with
     pState := some { ps with
       positionInPeriod := jadd ps.positionInPeriod (.fin 1) },
     absPosition := jadd gs.1.absPosition (.fin 1) }, gs.2)

/-- One iteration of the sample loop in `Generator.generateFrame`:
start a new period when at a boundary, compute the output sample, then
advance `positionInPeriod` and `absPosition`. -/
def sampleStep (env : MathEnv) (g : GenState) :
    Except KlattError (GenState × JsNum) := do
  let g1 ← if periodBoundary g then startNewPeriod env g else .ok g
  .ok (advanceCounters (computeNextOutputSignalSample env g1))

/-- The sample loop of `Generator.generateFrame`, producing `n` samples
(the caller's buffer length). -/
def generateFrameLoop (env : MathEnv) (g : GenState) :
    ℕ → Except KlattError (GenState × List JsNum)
  | 0 => .ok (g, [])
  | n + 1 => do
      let gs ← sampleStep env g
      let gr ← generateFrameLoop env gs.1 n
      .ok (gr.1, gs.2 :: gr.2)

/-- The identity test `fParms == this.fParms` of `generateFrame`: the
supplied object is the very object currently held as the active frame
parameters (reference equality; `this.fParms` is `undefined` before the
first adoption and then compares unequal to any object). -/
def sameFpRef (g : GenState) (fpr : FpRef) : Bool :=
  match g.fParms with
  | some old => decide (old.ref = fpr.ref)
  | none => false

/-- `Generator.generateFrame(fParms, outBuf)`: rejects the call when the
supplied `FrameParms` object is identical (same reference) to the active
`this.fParms`; otherwise records it as pending and runs the sample loop.
`n` is the length of the caller's output buffer; the produced samples are
returned as a list. -/
def generateFrame (env : MathEnv) (g : GenState) (fpr : FpRef) (n : ℕ) :
    Except KlattError (GenState × List JsNum) :=
  if sameFpRef g fpr then
    .error .frameParmsReused
  else
    generateFrameLoop env { g with newFParms := some fpr } n

/-- `Generator.initGlottalSource()`: picks the source for the configured
kind; any kind outside the enumeration throws. -/
def initGlottalSource (sampleRate : JsNum) (glottalSourceType : ℕ) :
    Except KlattError
      (Option ImpulsiveGlottalSource × Option NaturalGlottalSource) :=
  match glottalSourceType with
  | 0 => .ok (some (ImpulsiveGlottalSource.init sampleRate), none)
  | 1 => .ok (none, some NaturalGlottalSource.init)
  | 2 => .ok (none, none)                       -- noise: uses getWhiteNoise
  | _ => .error .undefinedGlottalSourceType

end GenState

/-- `new Generator(mParms)`.  `flutterTimeOffset` is `Math.random() * 1000`;
the random draw is passed in as `flutterOffset`. -/
def mkGenerator (env : MathEnv) (mParms : MainParms) (flutterOffset : ℚ) :
    Except KlattError GenState := do
  let tiltFilter := LpFilter1.init mParms.sampleRate
  let outputLp0 := Resonator.init mParms.sampleRate
  let outputLpFilter ← outputLp0.set env (.fin 0)
    (jdiv mParms.sampleRate (.fin 2)) (.fin 1)
  let (imp, nat) ← GenState.initGlottalSource mParms.sampleRate
    mParms.glottalSourceType
  let aspirationSourceCasc ← LpNoiseSource.init env mParms.sampleRate
  let aspirationSourcePar ← LpNoiseSource.init env mParms.sampleRate
  let fricationSourcePar ← LpNoiseSource.init env mParms.sampleRate
  let nasalFormantCasc := Resonator.init mParms.sampleRate
  let nasalAntiformantCasc := AntiResonator.init mParms.sampleRate
  let oralFormantCasc := List.replicate maxOralFormants
    (Resonator.init mParms.sampleRate)
  let nasalFormantPar := Resonator.init mParms.sampleRate
  let oralFormantPar := List.replicate maxOralFormants
    (Resonator.init mParms.sampleRate)
  .ok { mParms := mParms, fParms := none, newFParms := none,
        fState := initialFrameState, pState := none, absPosition := .fin 0,
        tiltFilter := tiltFilter, outputLpFilter := outputLpFilter,
        flutterTimeOffset := .fin (flutterOffset * 1000),
        impulsiveGSource := imp, naturalGSource := nat,
        aspirationSourceCasc := aspirationSourceCasc,
        aspirationSourcePar := aspirationSourcePar,
        fricationSourcePar := fricationSourcePar,
        nasalFormantCasc := nasalFormantCasc,
        nasalAntiformantCasc := nasalAntiformantCasc,
        oralFormantCasc := oralFormantCasc,
        nasalFormantPar := nasalFormantPar,
        oralFormantPar := oralFormantPar,
        differencingFilterPar := DifferencingFilter.init, randIdx := 0 }

/-- The per-frame sample count of `generateSound`:
`Math.round(fParms.duration * mParms.sampleRate)`. -/
def frameLen (sampleRate : JsNum) (fParms : FrameParms) : JsNum :=
  jround (jmul fParms.duration sampleRate)

/-- The use of a computed length as a buffer length.  The claims below
apply it only to finite non-negative integral lengths (a negative total
length would make the `Float64Array` constructor throw in JavaScript). -/
def jsLenNat : JsNum → ℕ
  | .fin q => (⌊q⌋ : ℤ).toNat
  | _ => 0

/-- The frame loop of `generateSound`: each frame is rendered by
`generateFrame` onto the sub-slice of the output buffer reserved for it
(modelled as concatenation of the per-frame sample lists). -/
def generateSoundGo (env : MathEnv) (mParms : MainParms) (g : GenState) :
    List FpRef → Except KlattError (List JsNum)
  | [] => .ok []
  | fpr :: rest => do
      let gb ← g.generateFrame env fpr
        (jsLenNat (frameLen mParms.sampleRate fpr.parms))
      let bufRest ← generateSoundGo env mParms gb.1 rest
      .ok (gb.2 ++ bufRest)

/-- `generateSound(mParms, fParmsA)`. -/
def generateSound (env : MathEnv) (mParms : MainParms) (flutterOffset : ℚ)
    (fParmsA : List FpRef) : Except KlattError (List JsNum) := do
  let g0 ← mkGenerator env mParms flutterOffset
  generateSoundGo env mParms g0 fParmsA

/-! ## Coefficient signatures

The data of a generator that the spec says may change only at a period
boundary: the active and pending frame parameters, the derived frame state
(linear gains), and the coefficients and mode flags of every filter.
Per-sample filter steps touch only delay state (`y1`, `y2`, `x1`, `x2`),
never this signature. -/

/-- Coefficients and mode flags of an `LpFilter1` (no delay state). -/
def LpFilter1.coeffs (f : LpFilter1) : JsNum × JsNum × Bool × Bool :=
  (f.a, f.b, f.passthrough, f.muted)

/-- Coefficients and mode flags of a `Resonator` (no delay state). -/
def Resonator.coeffs (rs : Resonator) :
    JsNum × JsNum × JsNum × JsNum × Bool × Bool :=
  (rs.a, rs.b, rs.c, rs.r, rs.passthrough, rs.muted)

/-- Coefficients and mode flags of an `AntiResonator` (no delay state). -/
def AntiResonator.coeffs (ar : AntiResonator) :
    JsNum × JsNum × JsNum × Bool × Bool :=
  (ar.a, ar.b, ar.c, ar.passthrough, ar.muted)

/-- The parameter-derived data of a whole generator. -/
structure CoeffSig where
  fParms               : Option FpRef
  newFParms            : Option FpRef
  fState               : FrameState
  tilt                 : JsNum × JsNum × Bool × Bool
  outputLp             : JsNum × JsNum × JsNum × JsNum × Bool × Bool
  aspCascNoise         : JsNum × JsNum × Bool × Bool
  aspParNoise          : JsNum × JsNum × Bool × Bool
  fricNoise            : JsNum × JsNum × Bool × Bool
  nasalFormantCasc     : JsNum × JsNum × JsNum × JsNum × Bool × Bool
  nasalAntiformantCasc : JsNum × JsNum × JsNum × Bool × Bool
  oralFormantCasc      : List (JsNum × JsNum × JsNum × JsNum × Bool × Bool)
  nasalFormantPar      : JsNum × JsNum × JsNum × JsNum × Bool × Bool
  oralFormantPar       : List (JsNum × JsNum × JsNum × JsNum × Bool × Bool)
  impulsiveRes         : Option (JsNum × JsNum × JsNum × JsNum × Bool × Bool)
deriving DecidableEq

/-- The parameter-derived data of a generator state. -/
def GenState.coeffSig (g : GenState) : CoeffSig :=
  { fParms := g.fParms, newFParms := g.newFParms, fState := g.fState,
    tilt := g.tiltFilter.coeffs, outputLp := g.outputLpFilter.coeffs,
    aspCascNoise := g.aspirationSourceCasc.lpFilter.coeffs,
    aspParNoise := g.aspirationSourcePar.lpFilter.coeffs,
    fricNoise := g.fricationSourcePar.lpFilter.coeffs,
    nasalFormantCasc := g.nasalFormantCasc.coeffs,
    nasalAntiformantCasc := g.nasalAntiformantCasc.coeffs,
    oralFormantCasc := g.oralFormantCasc.map Resonator.coeffs,
    nasalFormantPar := g.nasalFormantPar.coeffs,
    oralFormantPar := g.oralFormantPar.map Resonator.coeffs,
    impulsiveRes := (g.impulsiveGSource.bind
      ImpulsiveGlottalSource.resonator).map Resonator.coeffs }

theorem LpFilter1.coeffs_step_lp1 (f : LpFilter1) (x : JsNum) :
    ((f.step x).1).coeffs = f.coeffs := by
  unfold LpFilter1.step
  split_ifs <;> rfl

theorem Resonator.coeffs_step_res (rs : Resonator) (x : JsNum) :
    ((rs.step x).1).coeffs = rs.coeffs := by
  unfold Resonator.step
  split_ifs <;> rfl

theorem AntiResonator.coeffs_step_ar_res (ar : AntiResonator) (x : JsNum) :
    ((ar.step x).1).coeffs = ar.coeffs := by
  unfold AntiResonator.step
  split_ifs <;> rfl

/-- Writing back an element whose image under `f` is unchanged does not
change the mapped list. -/
theorem map_set_congr {α β : Type} (f : α → β) (d : α) :
    ∀ (l : List α) (i : ℕ) (a : α), f a = f (l.getD i d) →
      (l.set i a).map f = l.map f := by
  intro l
  induction l with
  | nil => intro i a _; rfl
  | cons x xs ih =>
    intro i a h
    cases i with
    | zero =>
        simp only [List.getD_cons_zero] at h
        simp [h]
    | succ n =>
        simp only [List.getD_cons_succ] at h
        simp [ih n a h]

theorem stepResAt_map_coeffs (rs : List Resonator) (i : ℕ) (x : JsNum) :
    ((stepResAt rs i x).1).map Resonator.coeffs = rs.map Resonator.coeffs := by
  unfold stepResAt
  exact map_set_congr Resonator.coeffs default rs i _
    (Resonator.coeffs_step_res _ _)

theorem LpNoiseSource.coeffs_getNext_ns (env : MathEnv) (ns : LpNoiseSource)
    (idx : ℕ) : ((ns.getNext env idx).1.1).lpFilter.coeffs =
      ns.lpFilter.coeffs := by
  unfold LpNoiseSource.getNext
  exact LpFilter1.coeffs_step_lp1 _ _

theorem ImpulsiveGlottalSource.coeffs_getNext_ig (s : ImpulsiveGlottalSource) :
    (s.getNext.1).resonator.map Resonator.coeffs =
      s.resonator.map Resonator.coeffs := by
  obtain ⟨sr, res, pos⟩ := s
  unfold ImpulsiveGlottalSource.getNext
  cases res with
  | none => rfl
  | some r => simp [Resonator.coeffs_step_res]

/-- Reading the impulsive source through `getD` with a fresh (resonator-less)
default gives the same resonator-coefficient view as `bind`. -/
theorem impulsiveRes_getD (o : Option ImpulsiveGlottalSource) (sr : JsNum) :
    ((o.getD (ImpulsiveGlottalSource.init sr)).resonator).map
        Resonator.coeffs =
      (o.bind ImpulsiveGlottalSource.resonator).map Resonator.coeffs := by
  cases o <;> simp [ImpulsiveGlottalSource.init]

theorem GenState.coeffSig_glottalSourceNext (env : MathEnv) (g : GenState) :
    ((g.glottalSourceNext env).1).coeffSig = g.coeffSig := by
  unfold GenState.glottalSourceNext
  rcases g.mParms.glottalSourceType with _ | _ | _ | k <;>
    simp [GenState.coeffSig, ImpulsiveGlottalSource.coeffs_getNext_ig,
      impulsiveRes_getD]

theorem GenState.coeffSig_computeCascadeBranch (env : MathEnv) (g : GenState)
    (voice : JsNum) :
    ((g.computeCascadeBranch env voice).1).coeffSig = g.coeffSig := by
  unfold GenState.computeCascadeBranch
  simp [GenState.coeffSig, stepResAt_map_coeffs, LpNoiseSource.coeffs_getNext_ns,
        AntiResonator.coeffs_step_ar_res, Resonator.coeffs_step_res]

theorem GenState.coeffSig_computeParallelBranch (env : MathEnv) (g : GenState)
    (voice : JsNum) :
    ((g.computeParallelBranch env voice).1).coeffSig = g.coeffSig := by
  unfold GenState.computeParallelBranch
  simp [GenState.coeffSig, stepResAt_map_coeffs, LpNoiseSource.coeffs_getNext_ns,
        Resonator.coeffs_step_res]

theorem GenState.coeffSig_computeNextOutputSignalSample (env : MathEnv)
    (g : GenState) :
    ((g.computeNextOutputSignalSample env).1).coeffSig = g.coeffSig := by
  unfold GenState.computeNextOutputSignalSample GenState.glottalSourceNext
  rcases g.mParms.glottalSourceType with _ | _ | _ | k <;>
  by_cases h1 : jlt g.ps.positionInPeriod g.ps.openPhaseLength <;>
  by_cases h2 : g.fp.cascadeEnabled <;>
  by_cases h3 : g.fp.parallelEnabled <;>
  simp [h1, h2, h3, GenState.coeffSig, GenState.computeCascadeBranch,
    GenState.computeParallelBranch, stepResAt_map_coeffs,
    LpNoiseSource.coeffs_getNext_ns, LpFilter1.coeffs_step_lp1,
    Resonator.coeffs_step_res, AntiResonator.coeffs_step_ar_res,
    ImpulsiveGlottalSource.coeffs_getNext_ig, impulsiveRes_getD]

theorem GenState.coeffSig_advanceCounters (gs : GenState × JsNum) :
    ((GenState.advanceCounters gs).1).coeffSig = (gs.1).coeffSig := by
  unfold GenState.advanceCounters
  rfl

/-! ## Concrete fixtures for witnesses and counterexamples

`envT` assigns plausible rational values to the oracles (exact values are
irrelevant for the structural claims; counterexamples that need particular
oracle values define their own environment). -/

/-- A test oracle environment. -/
def envT : MathEnv :=
  { pi := 3, sin := fun _ => 0, cos := fun _ => 0, exp := fun _ => 1/2,
    sqrt := fun _ => 1, pow10 := fun _ => 1, powG := fun _ _ => 1,
    rand := fun _ => 1/2 }

/-- A minimal valid `FrameParms`: unvoiced, no flutter, all formants
absent, both branches disabled. -/
def fpT : FrameParms :=
  { defaultFrameParms with
    duration := .fin (2/10000), f0 := .fin 0, flutterLevel := .fin 0,
    openPhaseRatio := .fin (7/10), breathinessDb := .fin (-99),
    tiltDb := .fin 0, gainDb := .fin 0 }

/-- Test main parameters: 10 kHz, natural glottal source. -/
def mpT : MainParms := { sampleRate := .fin 10000, glottalSourceType := 1 }

/-- An active second-order resonator with simple concrete coefficients. -/
def resT : Resonator :=
  { sampleRate := .fin 10000, a := .fin 1, b := .fin 0, c := .fin 0,
    y1 := .fin 0, y2 := .fin 0, r := .fin (1/2), passthrough := false,
    muted := false }

/-- An active first-order filter with simple concrete coefficients. -/
def lpT : LpFilter1 :=
  { sampleRate := .fin 10000, a := .fin 1, b := .fin 0, y1 := .fin 0,
    passthrough := false, muted := false }

/-- An active anti-resonator with simple concrete coefficients. -/
def arT : AntiResonator :=
  { sampleRate := .fin 10000, a := .fin 1, b := .fin 0, c := .fin 0,
    x1 := .fin 0, x2 := .fin 0, passthrough := false, muted := false }

/-- A concrete frame state (all gains bound). -/
def fsT : FrameState :=
  { breathinessLin := .fin 0, gainLin := .fin 1, cascadeVoicingLin := .fin 1,
    cascadeAspirationLin := .fin 0, parallelVoicingLin := .fin 1,
    parallelAspirationLin := .fin 0, fricationLin := .fin 0,
    parallelBypassLin := .fin 0 }

/-- A period state in mid-period (sample 3 of 100). -/
def psT : PeriodState :=
  { f0 := .fin 100, periodLength := .fin 100, openPhaseLength := .fin 70,
    positionInPeriod := .fin 3, lpNoise := .nan }

/-- A concrete generator state in mid-period, natural glottal source,
frame parameters with reference 0 active. -/
def genT : GenState :=
  { mParms := { sampleRate := .fin 10000, glottalSourceType := 1 },
    fParms := some ⟨0, fpT⟩, newFParms := none, fState := fsT,
    pState := some psT, absPosition := .fin 103,
    tiltFilter := lpT, outputLpFilter := resT, flutterTimeOffset := .fin 0,
    impulsiveGSource := none,
    naturalGSource := some NaturalGlottalSource.init,
    aspirationSourceCasc := ⟨lpT⟩, aspirationSourcePar := ⟨lpT⟩,
    fricationSourcePar := ⟨lpT⟩,
    nasalFormantCasc := resT, nasalAntiformantCasc := arT,
    oralFormantCasc := List.replicate 6 resT,
    nasalFormantPar := resT, oralFormantPar := List.replicate 6 resT,
    differencingFilterPar := DifferencingFilter.init, randIdx := 0 }

/-! ## Claim C1 -/

/-- **C1.**  Frame parameters are adopted only at the start of an F0 period:
a loop iteration of `generateFrame` that is not at a period boundary is
exactly the per-sample computation followed by the counter advance — it
never calls `startNewPeriod`, and it leaves the active `FrameParms`, the
pending `FrameParms`, the derived frame state and the coefficients and mode
flags of every filter (the `coeffSig`) unchanged.  Hence the parameters and
coefficients seen by every sample inside a period are the ones installed at
that period's start, and a newly supplied `FrameParms` (held in
`newFParms`) first takes effect at the next period boundary. -/
theorem c1_parms_adopted_only_at_period_start (env : MathEnv) (g : GenState)
    (h : g.periodBoundary = false) :
    g.sampleStep env =
      .ok (GenState.advanceCounters (g.computeNextOutputSignalSample env)) ∧
    ((GenState.advanceCounters
        (g.computeNextOutputSignalSample env)).1).coeffSig = g.coeffSig := by
  constructor
  · unfold GenState.sampleStep
    simp only [h, Bool.false_eq_true, if_false]
    rfl
  · rw [GenState.coeffSig_advanceCounters]
    exact GenState.coeffSig_computeNextOutputSignalSample env g

/-- Witness for C1 at a concrete mid-period state. -/
theorem c1_witness :
    GenState.periodBoundary genT = false ∧
    (GenState.sampleStep envT genT =
      .ok (GenState.advanceCounters
        (GenState.computeNextOutputSignalSample envT genT)) ∧
     ((GenState.advanceCounters
        (GenState.computeNextOutputSignalSample envT genT)).1).coeffSig =
       genT.coeffSig) :=
  ⟨by decide, c1_parms_adopted_only_at_period_start envT genT (by decide)⟩

/-! ## Claim C9 -/

/-- **C9.**  A `generateFrame` call with a zero-length output buffer (and a
`FrameParms` object distinct from the active one, so the re-use guard does
not fire) writes no samples and succeeds; the state is unchanged except
that the supplied `FrameParms` is recorded as pending for the next period
boundary: the absolute position, period state, frame state and all filter
states are untouched. -/
theorem c9_zero_length_frame_only_records_pending (env : MathEnv)
    (g : GenState) (fpr : FpRef) (h : GenState.sameFpRef g fpr = false) :
    g.generateFrame env fpr 0 = .ok ({ g with newFParms := some fpr }, []) := by
  unfold GenState.generateFrame
  simp only [h, Bool.false_eq_true, if_false]
  rfl

/-- Witness for C9 on the concrete generator `genT` (active reference 0,
supplied reference 1). -/
theorem c9_witness :
    GenState.sameFpRef genT ⟨1, fpT⟩ = false ∧
    GenState.generateFrame envT genT ⟨1, fpT⟩ 0 =
      .ok ({ genT with newFParms := some ⟨1, fpT⟩ }, []) :=
  ⟨by decide,
   c9_zero_length_frame_only_records_pending envT genT ⟨1, fpT⟩ (by decide)⟩

/-! ## Machinery: the sample loop never raises the re-use error

Every throw site reachable from the sample loop raises one of the filter
validation errors; `frameParmsReused` is raised only by the identity guard
at the top of `generateFrame`. -/

theorem bind_ne_err {α β : Type} {e : KlattError}
    {x : Except KlattError α} {f : α → Except KlattError β}
    (hx : x ≠ .error e) (hf : ∀ a, f a ≠ .error e) :
    (x >>= f) ≠ .error e := by
  cases x with
  | error err =>
      intro hc
      exact hx (by simpa [Bind.bind, Except.bind] using hc)
  | ok a =>
      simpa [Bind.bind, Except.bind] using hf a

theorem LpFilter1.set_ne_reused_lp1 (env : MathEnv) (fl : LpFilter1)
    (f g eg : JsNum) : fl.set env f g eg ≠ .error .frameParmsReused := by
  unfold LpFilter1.set
  split_ifs <;> simp

theorem Resonator.set_ne_reused_res (env : MathEnv) (rs : Resonator)
    (f bw dg : JsNum) : rs.set env f bw dg ≠ .error .frameParmsReused := by
  unfold Resonator.set
  split_ifs <;> simp

theorem Resonator.adjustPeakGain_ne_reused (rs : Resonator) (p : JsNum) :
    rs.adjustPeakGain p ≠ .error .frameParmsReused := by
  unfold Resonator.adjustPeakGain
  split_ifs <;> simp

theorem AntiResonator.set_ne_reused_ar_res (env : MathEnv) (ar : AntiResonator)
    (f bw : JsNum) : ar.set env f bw ≠ .error .frameParmsReused := by
  unfold AntiResonator.set
  dsimp only
  split_ifs <;> simp

theorem setTiltFilter_ne_reused (env : MathEnv) (tf : LpFilter1)
    (tiltDb : JsNum) : setTiltFilter env tf tiltDb ≠
      .error .frameParmsReused := by
  unfold setTiltFilter
  split_ifs
  · simp
  · exact LpFilter1.set_ne_reused_lp1 _ _ _ _ _

theorem setNasalFormantCasc_ne_reused (env : MathEnv) (rs : Resonator)
    (fp : FrameParms) : setNasalFormantCasc env rs fp ≠
      .error .frameParmsReused := by
  unfold setNasalFormantCasc
  split_ifs
  · exact Resonator.set_ne_reused_res _ _ _ _ _
  · simp

theorem setNasalAntiformantCasc_ne_reused (env : MathEnv)
    (ar : AntiResonator) (fp : FrameParms) :
    setNasalAntiformantCasc env ar fp ≠ .error .frameParmsReused := by
  unfold setNasalAntiformantCasc
  split_ifs
  · exact AntiResonator.set_ne_reused_ar_res _ _ _ _
  · simp

theorem setOralFormantCasc_ne_reused (env : MathEnv) (rs : Resonator)
    (fp : FrameParms) (i : ℕ) :
    setOralFormantCasc env rs fp i ≠ .error .frameParmsReused := by
  unfold setOralFormantCasc
  dsimp only
  split_ifs
  · exact Resonator.set_ne_reused_res _ _ _ _ _
  · simp

theorem setNasalFormantPar_ne_reused (env : MathEnv) (rs : Resonator)
    (fp : FrameParms) : setNasalFormantPar env rs fp ≠
      .error .frameParmsReused := by
  unfold setNasalFormantPar
  split_ifs
  · exact bind_ne_err (Resonator.set_ne_reused_res _ _ _ _ _)
      (fun a => Resonator.adjustPeakGain_ne_reused a _)
  · simp

theorem setOralFormantPar_ne_reused (env : MathEnv) (rs : Resonator)
    (mp : MainParms) (fp : FrameParms) (i : ℕ) :
    setOralFormantPar env rs mp fp i ≠ .error .frameParmsReused := by
  unfold setOralFormantPar
  dsimp only
  split_ifs with h1 h2
  · exact bind_ne_err (Resonator.set_ne_reused_res _ _ _ _ _)
      (fun a => Resonator.adjustPeakGain_ne_reused a _)
  · exact bind_ne_err (Resonator.set_ne_reused_res _ _ _ _ _)
      (fun a => Resonator.adjustPeakGain_ne_reused a _)
  · simp

theorem updResAt_ne_reused (rs : List Resonator) (i : ℕ)
    (f : Resonator → Except KlattError Resonator)
    (hf : ∀ r, f r ≠ .error .frameParmsReused) :
    updResAt rs i f ≠ .error .frameParmsReused := by
  unfold updResAt
  exact bind_ne_err (hf _) (fun a => by simp)

theorem startUsingNewFrameParameters_ne_reused (env : MathEnv)
    (g : GenState) : g.startUsingNewFrameParameters env ≠
      .error .frameParmsReused := by
  unfold GenState.startUsingNewFrameParameters
  refine bind_ne_err (setTiltFilter_ne_reused _ _ _) fun _ => ?_
  refine bind_ne_err (setNasalFormantCasc_ne_reused _ _ _) fun _ => ?_
  refine bind_ne_err (setNasalAntiformantCasc_ne_reused _ _ _) fun _ => ?_
  refine bind_ne_err (updResAt_ne_reused _ _ _
    (fun r => setOralFormantCasc_ne_reused _ _ _ _)) fun _ => ?_
  refine bind_ne_err (updResAt_ne_reused _ _ _
    (fun r => setOralFormantCasc_ne_reused _ _ _ _)) fun _ => ?_
  refine bind_ne_err (updResAt_ne_reused _ _ _
    (fun r => setOralFormantCasc_ne_reused _ _ _ _)) fun _ => ?_
  refine bind_ne_err (updResAt_ne_reused _ _ _
    (fun r => setOralFormantCasc_ne_reused _ _ _ _)) fun _ => ?_
  refine bind_ne_err (updResAt_ne_reused _ _ _
    (fun r => setOralFormantCasc_ne_reused _ _ _ _)) fun _ => ?_
  refine bind_ne_err (updResAt_ne_reused _ _ _
    (fun r => setOralFormantCasc_ne_reused _ _ _ _)) fun _ => ?_
  refine bind_ne_err (setNasalFormantPar_ne_reused _ _ _) fun _ => ?_
  refine bind_ne_err (updResAt_ne_reused _ _ _
    (fun r => setOralFormantPar_ne_reused _ _ _ _ _)) fun _ => ?_
  refine bind_ne_err (updResAt_ne_reused _ _ _
    (fun r => setOralFormantPar_ne_reused _ _ _ _ _)) fun _ => ?_
  refine bind_ne_err (updResAt_ne_reused _ _ _
    (fun r => setOralFormantPar_ne_reused _ _ _ _ _)) fun _ => ?_
  refine bind_ne_err (updResAt_ne_reused _ _ _
    (fun r => setOralFormantPar_ne_reused _ _ _ _ _)) fun _ => ?_
  refine bind_ne_err (updResAt_ne_reused _ _ _
    (fun r => setOralFormantPar_ne_reused _ _ _ _ _)) fun _ => ?_
  refine bind_ne_err (updResAt_ne_reused _ _ _
    (fun r => setOralFormantPar_ne_reused _ _ _ _ _)) fun _ => ?_
  simp

theorem ImpulsiveGlottalSource.startPeriod_ne_reused (env : MathEnv)
    (s : ImpulsiveGlottalSource) (op : JsNum) :
    s.startPeriod env op ≠ .error .frameParmsReused := by
  unfold ImpulsiveGlottalSource.startPeriod
  split_ifs
  · simp
  · exact bind_ne_err (Resonator.set_ne_reused_res _ _ _ _ _) (fun a => by simp)

theorem startGlottalSourcePeriod_ne_reused (env : MathEnv) (g : GenState) :
    g.startGlottalSourcePeriod env ≠ .error .frameParmsReused := by
  unfold GenState.startGlottalSourcePeriod
  rcases g.mParms.glottalSourceType with _ | _ | k
  · exact bind_ne_err (ImpulsiveGlottalSource.startPeriod_ne_reused _ _ _)
      (fun a => by simp)
  · simp
  · simp

theorem startNewPeriod_ne_reused (env : MathEnv) (g : GenState) :
    g.startNewPeriod env ≠ .error .frameParmsReused := by
  unfold GenState.startNewPeriod
  rcases g.newFParms with _ | nf
  · exact bind_ne_err (by simp)
      (fun a => startGlottalSourcePeriod_ne_reused _ _)
  · exact bind_ne_err (startUsingNewFrameParameters_ne_reused _ _)
      (fun a => startGlottalSourcePeriod_ne_reused _ _)

theorem sampleStep_ne_reused (env : MathEnv) (g : GenState) :
    g.sampleStep env ≠ .error .frameParmsReused := by
  unfold GenState.sampleStep
  split_ifs
  · exact bind_ne_err (startNewPeriod_ne_reused _ _) (fun a => by simp)
  · exact bind_ne_err (by simp) (fun a => by simp)

theorem generateFrameLoop_ne_reused (env : MathEnv) :
    ∀ (n : ℕ) (g : GenState),
      GenState.generateFrameLoop env g n ≠ .error .frameParmsReused := by
  intro n
  induction n with
  | zero => intro g; simp [GenState.generateFrameLoop]
  | succ m ih =>
      intro g
      unfold GenState.generateFrameLoop
      refine bind_ne_err (sampleStep_ne_reused _ _) fun a => ?_
      exact bind_ne_err (ih a.1) (fun b => by simp)

/-! ## Claim C4 -/

/-- **C4 is false as stated**: the guard compares the supplied object
against the currently *active* `this.fParms`, not against the argument of
the immediately preceding call.  Here the first call passes the (pending,
never adopted, zero samples requested) object with reference 1; the second
call passes the *same* object again and, contrary to the claim, raises
nothing — it succeeds. -/
theorem c4_counterexample :
    GenState.generateFrame envT genT ⟨1, fpT⟩ 0 =
      .ok ({ genT with newFParms := some ⟨1, fpT⟩ }, []) ∧
    GenState.generateFrame envT { genT with newFParms := some ⟨1, fpT⟩ }
        ⟨1, fpT⟩ 0 =
      .ok ({ genT with newFParms := some ⟨1, fpT⟩ }, []) :=
  ⟨rfl, rfl⟩

/-- **C4 (amended).**  `generateFrame` raises `frameParmsReused` exactly
when the supplied `FrameParms` object is identical to the currently
*active* `this.fParms` — the object adopted at the last period boundary
(which is the previous call's argument only once that argument has been
adopted).  When it raises, it does so at entry, before the sample loop, so
no sample is written and no state is mutated; when the supplied object is
distinct from the active one, the call is exactly the sample loop on the
state with the new parameters recorded as pending, and this error cannot
be raised by the loop. -/
theorem c4_amended_reuse_guard (env : MathEnv) (g : GenState) (fpr : FpRef)
    (n : ℕ) :
    (GenState.sameFpRef g fpr = true →
      g.generateFrame env fpr n = .error .frameParmsReused) ∧
    (GenState.sameFpRef g fpr = false →
      g.generateFrame env fpr n =
        GenState.generateFrameLoop env { g with newFParms := some fpr } n ∧
      g.generateFrame env fpr n ≠ .error .frameParmsReused) := by
  constructor
  · intro h
    unfold GenState.generateFrame
    simp [h]
  · intro h
    unfold GenState.generateFrame
    simp only [h, Bool.false_eq_true, if_false, eq_self_iff_true, true_and]
    exact generateFrameLoop_ne_reused env n _

/-- Witness for C4 (amended): passing the active object (reference 0)
raises; passing a distinct object (reference 1) does not. -/
theorem c4_witness :
    (GenState.sameFpRef genT ⟨0, fpT⟩ = true ∧
      GenState.generateFrame envT genT ⟨0, fpT⟩ 5 =
        .error .frameParmsReused) ∧
    (GenState.sameFpRef genT ⟨1, fpT⟩ = false ∧
      GenState.generateFrame envT genT ⟨1, fpT⟩ 0 ≠
        .error .frameParmsReused) :=
  ⟨⟨by decide, (c4_amended_reuse_guard envT genT ⟨0, fpT⟩ 5).1 (by decide)⟩,
   ⟨by decide, ((c4_amended_reuse_guard envT genT ⟨1, fpT⟩ 0).2
      (by decide)).2⟩⟩

/-! ## Claim C3 -/

theorem ok_bind_eq {ε α β : Type} (a : α) (f : α → Except ε β) :
    ((Except.ok a : Except ε α) >>= f) = f a := rfl

instance {ε α : Type} [DecidableEq ε] [DecidableEq α] :
    DecidableEq (Except ε α) := fun x y =>
  match x, y with
  | .error a, .error b =>
      if h : a = b then .isTrue (by rw [h]) else .isFalse (by simp [h])
  | .ok a, .ok b =>
      if h : a = b then .isTrue (by rw [h]) else .isFalse (by simp [h])
  | .error _, .ok _ => .isFalse (by simp)
  | .ok _, .error _ => .isFalse (by simp)

/-- `startGlottalSourcePeriod` succeeds and does not touch the period state
whenever the open-phase length is a non-negative integer and the sample
rates recorded in the generator are the (positive) main sample rate. -/
theorem startGlottalSourcePeriod_ok (env : MathEnv) (g : GenState)
    (fsr : ℚ) (M : ℤ)
    (hrate : g.mParms.sampleRate = .fin fsr) (hfs : 0 < fsr)
    (himp : ∀ s, g.impulsiveGSource = some s → s.sampleRate = .fin fsr ∧
      ∀ r, s.resonator = some r → r.sampleRate = .fin fsr)
    (hop : g.ps.openPhaseLength = .fin (M : ℚ)) (hM : 0 ≤ M) :
    ∃ g', g.startGlottalSourcePeriod env = .ok g' ∧ g'.pState = g.pState := by
  unfold GenState.startGlottalSourcePeriod
  rcases hk : g.mParms.glottalSourceType with _ | _ | k
  · -- impulsive
    have hsp : ∃ s', (g.impulsiveGSource.getD
        (ImpulsiveGlottalSource.init g.mParms.sampleRate)).startPeriod env
          g.ps.openPhaseLength = .ok s' := by
      have hsr : (g.impulsiveGSource.getD
          (ImpulsiveGlottalSource.init g.mParms.sampleRate)).sampleRate =
            .fin fsr := by
        rcases hgi : g.impulsiveGSource with _ | s
        · simp [ImpulsiveGlottalSource.init, hrate]
        · simpa using (himp s hgi).1
      have hres : ∀ r, (g.impulsiveGSource.getD
          (ImpulsiveGlottalSource.init g.mParms.sampleRate)).resonator =
            some r → r.sampleRate = .fin fsr := by
        rcases hgi : g.impulsiveGSource with _ | s
        · intro r hr
          simp [ImpulsiveGlottalSource.init] at hr
        · intro r hr
          exact (himp s hgi).2 r (by simpa using hr)
      unfold ImpulsiveGlottalSource.startPeriod
      rw [hop]
      by_cases hM0 : (M : ℚ) = 0
      · simp [JsNum.truthy, hM0]
      · have hMpos : 0 < (M : ℚ) := lt_of_le_of_ne (by exact_mod_cast hM)
          (Ne.symm hM0)
        have ht : (JsNum.fin (M : ℚ)).truthy = true := by
          simp [JsNum.truthy, hM0]
        simp only [ht, Bool.not_true, Bool.false_eq_true, if_false]
        have hbw : jdiv ((g.impulsiveGSource.getD
            (ImpulsiveGlottalSource.init g.mParms.sampleRate)).sampleRate)
              (.fin (M : ℚ)) = .fin (fsr / M) := by
          rw [hsr]; simp [jdiv, hM0]
        have hr0sr : ((g.impulsiveGSource.getD
            (ImpulsiveGlottalSource.init g.mParms.sampleRate)).resonator.getD
              (Resonator.init (g.impulsiveGSource.getD
                (ImpulsiveGlottalSource.init
                  g.mParms.sampleRate)).sampleRate)).sampleRate =
            .fin fsr := by
          rcases hri : (g.impulsiveGSource.getD
              (ImpulsiveGlottalSource.init
                g.mParms.sampleRate)).resonator with _ | r
          · simp [Resonator.init, hsr]
          · simpa using hres r hri
        rw [hbw]
        unfold Resonator.set
        rw [hr0sr]
        have hguard : (jlt (JsNum.fin 0) (.fin 0) ||
            jge (.fin 0) (jdiv (.fin fsr) (.fin 2)) ||
            jle (.fin (fsr / M)) (.fin 0) || jle (.fin 1) (.fin 0) ||
            !(JsNum.fin 0).isFiniteB || !(JsNum.fin (fsr / M)).isFiniteB ||
            !(JsNum.fin 1).isFiniteB) = false := by
          have h2 : jdiv (JsNum.fin fsr) (.fin 2) = .fin (fsr / 2) := by
            norm_num [jdiv]
          rw [h2]
          simp only [jlt, jge, jle, isFiniteB, Bool.or_false, Bool.not_true,
            Bool.not_false]
          have hA : ¬ (0:ℚ) < 0 := lt_irrefl 0
          have hB : ¬ (fsr / 2 ≤ (0:ℚ)) := by rw [not_le]; positivity
          have hC : ¬ (fsr / M ≤ (0:ℚ)) := by rw [not_le]; positivity
          have hD : ¬ ((1:ℚ) ≤ 0) := by norm_num
          simp [hA, hB, hC, hD]
        simp only [hguard, Bool.false_eq_true, if_false]
        exact ⟨_, rfl⟩
    obtain ⟨s', hs'⟩ := hsp
    rw [hs', ok_bind_eq]
    exact ⟨_, rfl, rfl⟩
  · exact ⟨_, rfl, rfl⟩
  · exact ⟨_, rfl, rfl⟩

/-- **C3 (amended).**  At the start of a period (here: with no pending
frame parameters, flutter level 0, modulated F0 = f0 = `q ≥ 0` — and the
amendment: `q ≤ 2·fs`), the scheduler establishes `period_length ≥ 1`;
when the modulated F0 is 0 it sets `period_length = 1` and
`open_phase_length = 0`; and `0 ≤ open_phase_length ≤ period_length`.
The claim's unconditional `period_length ≥ 1` is false: for a modulated F0
above twice the sample rate, `Math.round(fs/f0) = 0`
(see the counterexample). -/
theorem c3_amended_period_invariants (env : MathEnv) (g : GenState)
    (fsr q rho : ℚ)
    (hnf : g.newFParms = none)
    (hrate : g.mParms.sampleRate = .fin fsr) (hfs : 0 < fsr)
    (himp : ∀ s, g.impulsiveGSource = some s → s.sampleRate = .fin fsr ∧
      ∀ r, s.resonator = some r → r.sampleRate = .fin fsr)
    (hf0 : g.fp.f0 = .fin q) (hflut : g.fp.flutterLevel = .fin 0)
    (_hq0 : 0 ≤ q) (hq2 : q ≤ 2 * fsr)
    (hratio : g.fp.openPhaseRatio = .fin rho) (hr0 : 0 < rho)
    (hr1 : rho < 1) :
    ∃ (g' : GenState) (L M : ℤ),
      g.startNewPeriod env = .ok g' ∧
      g'.ps.periodLength = .fin (L : ℚ) ∧
      g'.ps.openPhaseLength = .fin (M : ℚ) ∧
      g'.ps.positionInPeriod = .fin 0 ∧
      1 ≤ L ∧ 0 ≤ M ∧ M ≤ L ∧ (q ≤ 0 → L = 1 ∧ M = 0) := by
  have hmod : ∀ T, performFrequencyModulation env (g.fp).f0
      (g.fp).flutterLevel T = .fin q := by
    intro T
    unfold performFrequencyModulation
    rw [hflut, hf0]
    norm_num [jle]
  unfold GenState.startNewPeriod
  simp only [hnf, ok_bind_eq]
  rw [hmod, hrate, hratio]
  by_cases hq : 0 < q
  · have hgt : jgt (JsNum.fin q) (.fin 0) = true := by
      simp [jgt, jlt, hq]
    have hdiv : jdiv (JsNum.fin fsr) (.fin q) = .fin (fsr / q) := by
      simp [jdiv, ne_of_gt hq]
    simp only [hgt, if_true, hdiv, jround, jmul]
    set L : ℤ := ⌊fsr / q + 1/2⌋ with hLdef
    have hL1 : 1 ≤ L := by
      rw [hLdef, Int.le_floor]
      have hhalf : (1:ℚ)/2 ≤ fsr / q := by
        rw [le_div_iff₀ hq]
        linarith
      push_cast
      linarith
    by_cases hL2 : (1:ℚ) < (L : ℚ)
    · have hgt2 : jgt (JsNum.fin (L : ℚ)) (.fin 1) = true := by
        simp [jgt, jlt, hL2]
      simp only [hgt2, if_true, jround]
      set M : ℤ := ⌊(L : ℚ) * rho + 1/2⌋ with hMdef
      have hM0 : 0 ≤ M := by
        rw [hMdef, Int.le_floor]
        push_cast
        nlinarith
      have hML : M ≤ L := by
        have : M < L + 1 := by
          rw [hMdef, Int.floor_lt]
          push_cast
          nlinarith
        omega
      obtain ⟨g', hok, hps⟩ := startGlottalSourcePeriod_ok env
        { g with
          newFParms := none,
          pState := some { (g.pState.getD emptyPeriodState) with
            f0 := .fin q, periodLength := .fin (L : ℚ),
            openPhaseLength := .fin (M : ℚ),
            positionInPeriod := .fin 0 } }
        fsr M hrate hfs himp (by simp [GenState.ps]) hM0
      refine ⟨g', L, M, hok, ?_, ?_, ?_, hL1, hM0, hML, fun hle => ?_⟩
      · simp [GenState.ps, hps]
      · simp [GenState.ps, hps]
      · simp [GenState.ps, hps]
      · exact absurd hle (not_le.mpr hq)
    · have hgt2 : jgt (JsNum.fin (L : ℚ)) (.fin 1) = false := by
        simp [jgt, jlt]
        exact_mod_cast not_lt.mp hL2
      simp only [hgt2, Bool.false_eq_true, if_false]
      have hLeq : L = 1 := by
        have : (L : ℚ) ≤ 1 := not_lt.mp hL2
        have : L ≤ 1 := by exact_mod_cast this
        omega
      obtain ⟨g', hok, hps⟩ := startGlottalSourcePeriod_ok env
        { g with
          newFParms := none,
          pState := some { (g.pState.getD emptyPeriodState) with
            f0 := .fin q, periodLength := .fin (L : ℚ),
            openPhaseLength := .fin 0,
            positionInPeriod := .fin 0 } }
        fsr 0 hrate hfs himp (by simp [GenState.ps]) le_rfl
      refine ⟨g', L, 0, hok, ?_, ?_, ?_, hL1, le_rfl, by omega,
        fun hle => ?_⟩
      · simp [GenState.ps, hps]
      · simp [GenState.ps, hps]
      · simp [GenState.ps, hps]
      · exact absurd hle (not_le.mpr hq)
  · have hgt : jgt (JsNum.fin q) (.fin 0) = false := by
      simp [jgt, jlt]
      exact not_lt.mp hq
    have hgt2 : jgt (JsNum.fin (1:ℚ)) (.fin 1) = false := by
      simp [jgt, jlt]
    simp only [hgt, hgt2, Bool.false_eq_true, if_false]
    obtain ⟨g', hok, hps⟩ := startGlottalSourcePeriod_ok env
      { g with
        newFParms := none,
        pState := some { (g.pState.getD emptyPeriodState) with
          f0 := .fin q, periodLength := .fin 1,
          openPhaseLength := .fin 0,
          positionInPeriod := .fin 0 } }
      fsr 0 hrate hfs himp (by simp [GenState.ps]) le_rfl
    refine ⟨g', 1, 0, hok, ?_, ?_, ?_, le_rfl, le_rfl, by omega,
      fun _ => ⟨rfl, rfl⟩⟩
    · simp [GenState.ps, hps]
    · simp [GenState.ps, hps]
    · simp [GenState.ps, hps]

/-- A generator at sample rate 10 with active F0 = 5 Hz (no flutter). -/
def genC3W : GenState :=
  { genT with mParms := { sampleRate := .fin 10, glottalSourceType := 1 },
              fParms := some ⟨0, { fpT with f0 := .fin 5 }⟩ }

/-- A generator at sample rate 10 whose active frame parameters request
F0 = 100 Hz (no flutter): the modulated F0 exceeds twice the sample rate. -/
def genC3 : GenState :=
  { genT with mParms := { sampleRate := .fin 10, glottalSourceType := 1 },
              fParms := some ⟨0, { fpT with f0 := .fin 100 }⟩ }

/-- **C3 is false as stated**: with sample rate 10 and F0 = 100 ≥ 0 (open
phase ratio 0.7 ∈ (0,1), flutter 0), `startNewPeriod` establishes
`period_length = round(10/100) = 0`, contradicting `period_length ≥ 1`. -/
theorem c3_counterexample :
    (GenState.startNewPeriod envT genC3).map
      (fun g => (g.ps.periodLength, g.ps.openPhaseLength)) =
      .ok (.fin 0, .fin 0) ∧
    jge (.fin 0) (.fin 1) = false :=
  ⟨by decide, rfl⟩

/-- Witness for C3 (amended) at sample rate 10, F0 = 5, ratio 0.7:
period length 2, open phase length 1. -/
theorem c3_witness :
    (genC3W.newFParms = none ∧ genC3W.mParms.sampleRate = .fin 10 ∧
      (0:ℚ) < 10 ∧ genC3W.fp.f0 = .fin 5 ∧
      genC3W.fp.flutterLevel = .fin 0 ∧ (0:ℚ) ≤ 5 ∧ (5:ℚ) ≤ 2 * 10 ∧
      genC3W.fp.openPhaseRatio = .fin (7/10) ∧ (0:ℚ) < 7/10 ∧
      (7/10:ℚ) < 1) ∧
    (∃ (g' : GenState) (L M : ℤ),
      GenState.startNewPeriod envT genC3W = .ok g' ∧
      g'.ps.periodLength = .fin (L : ℚ) ∧
      g'.ps.openPhaseLength = .fin (M : ℚ) ∧
      g'.ps.positionInPeriod = .fin 0 ∧
      1 ≤ L ∧ 0 ≤ M ∧ M ≤ L ∧ ((5:ℚ) ≤ 0 → L = 1 ∧ M = 0)) :=
  ⟨⟨rfl, rfl, by norm_num, rfl, rfl, by norm_num, by norm_num, rfl,
      by norm_num, by norm_num⟩,
   c3_amended_period_invariants envT genC3W 10 5 (7/10) rfl rfl
     (by norm_num) (fun s hs => by simp [genC3W, genT] at hs) rfl rfl
     (by norm_num) (by norm_num) rfl (by norm_num) (by norm_num)⟩

/-! ## Claim C2 -/

theorem jadd_fin_zero (x : JsNum) : jadd (.fin 0) x = x := by
  cases x <;> simp [jadd]

theorem getD_set_ne {α : Type} (l : List α) (i j : ℕ) (a d : α)
    (h : i ≠ j) : (l.set i a).getD j d = l.getD j d := by
  simp [List.getD_eq_getElem?_getD, List.getElem?_set_ne h]

/-- The parallel-branch output as claim C2 states it (spec §4.7): the sum
`parallel_nasal(source) + parallel_oral[0](source)
 + Σ i = 1..5 of (-1)^(i+1) * parallel_oral[i](source2)
 + parallel_bypass_lin * source2`,
with `source` the voiced-plus-aspiration signal and `source2` its first
difference plus frication noise, both exactly as the engine derives them. -/
def parallelOutputSpecClaim (env : MathEnv) (g : GenState) (voice : JsNum) :
    JsNum :=
  let fParms := g.fp
  let fState := g.fState
  let pState := g.ps
  let parallelVoice := jmul voice fState.parallelVoicingLin
  let currentAspirationMod :=
    if jge pState.positionInPeriod (jdiv pState.periodLength (.fin 2)) then
      fParms.parallelAspirationMod
    else .fin 0
  let asp := g.aspirationSourcePar.getNext env g.randIdx
  let aspiration :=
    jmul (jmul asp.2 fState.parallelAspirationLin)
         (jsub (.fin 1) currentAspirationMod)
  let source := jadd parallelVoice aspiration
  let sourceDifference := (g.differencingFilterPar.step source).2
  let currentFricationMod :=
    if jge pState.positionInPeriod (jdiv pState.periodLength (.fin 2)) then
      fParms.fricationMod
    else .fin 0
  let fric := g.fricationSourcePar.getNext env asp.1.2
  let fricationNoise :=
    jmul (jmul fric.2 fState.fricationLin) (jsub (.fin 1) currentFricationMod)
  let source2 := jadd sourceDifference fricationNoise
  let nasal := (g.nasalFormantPar.step source).2
  let oral0 := ((g.oralFormantPar.getD 0 default).step source).2
  let o1 := ((g.oralFormantPar.getD 1 default).step source2).2
  let o2 := ((g.oralFormantPar.getD 2 default).step source2).2
  let o3 := ((g.oralFormantPar.getD 3 default).step source2).2
  let o4 := ((g.oralFormantPar.getD 4 default).step source2).2
  let o5 := ((g.oralFormantPar.getD 5 default).step source2).2
  jadd (jadd (jadd (jadd (jadd (jadd (jadd nasal oral0)
    (jmul (.fin ((-1:ℚ)^(1+1))) o1))
    (jmul (.fin ((-1:ℚ)^(2+1))) o2))
    (jmul (.fin ((-1:ℚ)^(3+1))) o3))
    (jmul (.fin ((-1:ℚ)^(4+1))) o4))
    (jmul (.fin ((-1:ℚ)^(5+1))) o5))
    (jmul fState.parallelBypassLin source2)

/-- The parallel-branch output with the sign corrected to `(-1)^i` on the
oral formant at array index `i` (`-1` for F2, `+1` for F3, ...; the only
change from `parallelOutputSpecClaim` is the exponent). -/
def parallelOutputSpecAmended (env : MathEnv) (g : GenState) (voice : JsNum) :
    JsNum :=
  let fParms := g.fp
  let fState := g.fState
  let pState := g.ps
  let parallelVoice := jmul voice fState.parallelVoicingLin
  let currentAspirationMod :=
    if jge pState.positionInPeriod (jdiv pState.periodLength (.fin 2)) then
      fParms.parallelAspirationMod
    else .fin 0
  let asp := g.aspirationSourcePar.getNext env g.randIdx
  let aspiration :=
    jmul (jmul asp.2 fState.parallelAspirationLin)
         (jsub (.fin 1) currentAspirationMod)
  let source := jadd parallelVoice aspiration
  let sourceDifference := (g.differencingFilterPar.step source).2
  let currentFricationMod :=
    if jge pState.positionInPeriod (jdiv pState.periodLength (.fin 2)) then
      fParms.fricationMod
    else .fin 0
  let fric := g.fricationSourcePar.getNext env asp.1.2
  let fricationNoise :=
    jmul (jmul fric.2 fState.fricationLin) (jsub (.fin 1) currentFricationMod)
  let source2 := jadd sourceDifference fricationNoise
  let nasal := (g.nasalFormantPar.step source).2
  let oral0 := ((g.oralFormantPar.getD 0 default).step source).2
  let o1 := ((g.oralFormantPar.getD 1 default).step source2).2
  let o2 := ((g.oralFormantPar.getD 2 default).step source2).2
  let o3 := ((g.oralFormantPar.getD 3 default).step source2).2
  let o4 := ((g.oralFormantPar.getD 4 default).step source2).2
  let o5 := ((g.oralFormantPar.getD 5 default).step source2).2
  jadd (jadd (jadd (jadd (jadd (jadd (jadd nasal oral0)
    (jmul (.fin ((-1:ℚ)^1)) o1))
    (jmul (.fin ((-1:ℚ)^2)) o2))
    (jmul (.fin ((-1:ℚ)^3)) o3))
    (jmul (.fin ((-1:ℚ)^4)) o4))
    (jmul (.fin ((-1:ℚ)^5)) o5))
    (jmul fState.parallelBypassLin source2)

/-- **C2 (amended).**  For every state and input, the parallel branch
output equals the claimed sum with the sign on the oral formant at array
index `i` (i = 1..5, i.e. F2..F6) being `(-1)^i`, not the claimed
`(-1)^(i+1)`: F2, F4, F6 enter negatively and F3, F5 positively. -/
theorem c2_amended_parallel_branch_formula (env : MathEnv) (g : GenState)
    (voice : JsNum) :
    (g.computeParallelBranch env voice).2 =
      parallelOutputSpecAmended env g voice := by
  unfold GenState.computeParallelBranch parallelOutputSpecAmended
  simp only [stepResAt]
  norm_num [getD_set_ne, jadd_fin_zero]

/-- A muted resonator. -/
def mutedResT : Resonator := { resT with passthrough := false, muted := true }

/-- A generator whose parallel branch isolates the oral formant at array
index 1 (F2): nasal and all other oral resonators muted, F2 is a unit
filter (`a = 1, b = c = 0`), bypass gain 0, aspiration and frication
gains 0, unit parallel voicing. -/
def genC2 : GenState :=
  { genT with nasalFormantPar := mutedResT,
              oralFormantPar := [mutedResT, resT, mutedResT, mutedResT,
                                 mutedResT, mutedResT] }

/-- **C2 is false as stated**: with only F2 active (as a unit filter) and
voice 1, the engine outputs `-1` (the source applies sign `-1` to array
index 1) while the claimed formula `(-1)^(i+1)` gives `+1`. -/
theorem c2_counterexample :
    (GenState.computeParallelBranch envT genC2 (.fin 1)).2 = .fin (-1) ∧
    parallelOutputSpecClaim envT genC2 (.fin 1) = .fin 1 ∧
    (GenState.computeParallelBranch envT genC2 (.fin 1)).2 ≠
      parallelOutputSpecClaim envT genC2 (.fin 1) := by
  refine ⟨by decide, by decide, by decide⟩

/-! ## Claim C10 -/

/-- **C10.**  `Resonator.adjustImpulseGain(newA)` is total (its type has no
error case, mirroring the absence of any `throw` in the source) and, for
every argument including NaN, infinities, zero and negatives, writes only
the coefficient `a`, leaving `b`, `c`, the delay state `y1`, `y2`, the
mode flags and the stored `r` and sample rate unchanged — in contrast to
`adjustPeakGain`, which rejects exactly the non-positive or non-finite
gains. -/
theorem c10_adjust_impulse_gain_total (rs : Resonator) (newA p : JsNum) :
    (rs.adjustImpulseGain newA).a = newA ∧
    (rs.adjustImpulseGain newA).b = rs.b ∧
    (rs.adjustImpulseGain newA).c = rs.c ∧
    (rs.adjustImpulseGain newA).r = rs.r ∧
    (rs.adjustImpulseGain newA).y1 = rs.y1 ∧
    (rs.adjustImpulseGain newA).y2 = rs.y2 ∧
    (rs.adjustImpulseGain newA).passthrough = rs.passthrough ∧
    (rs.adjustImpulseGain newA).muted = rs.muted ∧
    (rs.adjustImpulseGain newA).sampleRate = rs.sampleRate ∧
    ((jle p (.fin 0) || !p.isFiniteB) = true ↔
      rs.adjustPeakGain p = .error .invalidResonatorPeakGain) := by
  refine ⟨rfl, rfl, rfl, rfl, rfl, rfl, rfl, rfl, rfl, ?_⟩
  unfold Resonator.adjustPeakGain
  split_ifs with h <;> simp [h]

/-! ## Claim C6 -/

/-- **C6.**  `dbToLin` returns 0 for NaN, for -Infinity and for every
value less than or equal to -99, and `10^(d/20)` otherwise (with
`10^(Infinity/20) = Infinity`, the top element); in particular
`dbToLin(0) = 1`, `dbToLin(-20) = 0.1`, `dbToLin(-99) = 0` and
`dbToLin(NaN) = 0`. -/
theorem c6_dbToLin_values :
    dbToLinReal (.fin 0) = ((1 : ℝ) : EReal) ∧
    dbToLinReal (.fin (-20)) = (((1 : ℝ) / 10) : EReal) ∧
    dbToLinReal (.fin (-99)) = ((0 : ℝ) : EReal) ∧
    dbToLinReal .nan = ((0 : ℝ) : EReal) ∧
    dbToLinReal .negInf = ((0 : ℝ) : EReal) ∧
    dbToLinReal .posInf = (⊤ : EReal) ∧
    (∀ d : JsNum, (jle d (.fin (-99)) || d.isNaNB) = true →
      dbToLinReal d = ((0 : ℝ) : EReal)) ∧
    (∀ q : ℚ, -99 < q →
      dbToLinReal (.fin q) = (((10 : ℝ) ^ ((q : ℝ) / 20) : ℝ) : EReal)) := by
  have hdiv20 : ∀ q : ℚ, jdiv (.fin q) (.fin 20) = .fin (q / 20) := by
    intro q
    norm_num [jdiv]
  refine ⟨?_, ?_, ?_, ?_, ?_, ?_, ?_, ?_⟩
  · rw [dbToLinReal]
    norm_num [jle, isNaNB, hdiv20, jsPow10Real]
  · rw [dbToLinReal]
    have h1 : ((-20 : ℚ)) / 20 = -1 := by norm_num
    norm_num [jle, isNaNB, hdiv20, jsPow10Real, h1, EReal.coe_eq_coe_iff]
    rw [show ((10 : EReal)⁻¹) = (((10 : ℝ)⁻¹ : ℝ) : EReal) from rfl]
    norm_num [EReal.coe_eq_coe_iff]
  · rw [dbToLinReal]
    norm_num [jle, isNaNB]
  · rfl
  · rfl
  · rw [dbToLinReal]
    norm_num [jle, isNaNB, jdiv, jsPow10Real]
  · intro d h
    rw [dbToLinReal, h]
    rfl
  · intro q h
    rw [dbToLinReal]
    have hg : (jle (JsNum.fin q) (.fin (-99)) || (JsNum.fin q).isNaNB) =
        false := by
      simp [jle, isNaNB]
      linarith
    rw [hg]
    norm_num [hdiv20, jsPow10Real]

/-- Witness for C6's conditional clauses: `-40` is above the `-99` cutoff
and maps to `10 ^ (-2)`; `-200` is below and maps to 0. -/
theorem c6_witness :
    ((-99 : ℚ) < -40 ∧
      dbToLinReal (.fin (-40)) =
        (((10 : ℝ) ^ (((-40 : ℚ) : ℝ) / 20) : ℝ) : EReal)) ∧
    ((jle (.fin (-200)) (.fin (-99)) || (JsNum.fin (-200)).isNaNB) = true ∧
      dbToLinReal (.fin (-200)) = ((0 : ℝ) : EReal)) :=
  ⟨⟨by norm_num,
    c6_dbToLin_values.2.2.2.2.2.2.2 (-40) (by norm_num)⟩,
   ⟨by decide,
    c6_dbToLin_values.2.2.2.2.2.2.1 (.fin (-200)) (by decide)⟩⟩

/-! ## Claim C5 -/

theorem generateFrameLoop_length (env : MathEnv) :
    ∀ (n : ℕ) (g g' : GenState) (buf : List JsNum),
      GenState.generateFrameLoop env g n = .ok (g', buf) → buf.length = n := by
  intro n
  induction n with
  | zero =>
      intro g g' buf h
      unfold GenState.generateFrameLoop at h
      rcases h with ⟨⟩
      rfl
  | succ m ih =>
      intro g g' buf h
      unfold GenState.generateFrameLoop at h
      cases hs : GenState.sampleStep env g with
      | error e =>
          rw [hs] at h
          simp [Bind.bind, Except.bind] at h
      | ok gs =>
          rw [hs, ok_bind_eq] at h
          cases hl : GenState.generateFrameLoop env gs.1 m with
          | error e =>
              rw [hl] at h
              simp [Bind.bind, Except.bind] at h
          | ok gr =>
              rw [hl, ok_bind_eq] at h
              rcases h with ⟨⟩
              simp [ih gs.1 gr.1 gr.2 hl]

theorem generateFrame_length (env : MathEnv) (g : GenState) (fpr : FpRef)
    (n : ℕ) (g' : GenState) (buf : List JsNum)
    (h : g.generateFrame env fpr n = .ok (g', buf)) : buf.length = n := by
  unfold GenState.generateFrame at h
  by_cases hr : GenState.sameFpRef g fpr
  · rw [if_pos hr] at h
    cases h
  · rw [if_neg hr] at h
    exact generateFrameLoop_length env n _ g' buf h

theorem generateSoundGo_length (env : MathEnv) (mp : MainParms) :
    ∀ (frames : List FpRef) (g : GenState) (out : List JsNum),
      generateSoundGo env mp g frames = .ok out →
      out.length = (frames.map
        (fun fr => jsLenNat (frameLen mp.sampleRate fr.parms))).sum := by
  intro frames
  induction frames with
  | nil =>
      intro g out h
      unfold generateSoundGo at h
      rcases h with ⟨⟩
      rfl
  | cons fr rest ih =>
      intro g out h
      unfold generateSoundGo at h
      cases hf : g.generateFrame env fr
          (jsLenNat (frameLen mp.sampleRate fr.parms)) with
      | error e =>
          rw [hf] at h
          simp [Bind.bind, Except.bind] at h
      | ok gb =>
          rw [hf, ok_bind_eq] at h
          cases hr : generateSoundGo env mp gb.1 rest with
          | error e =>
              rw [hr] at h
              simp [Bind.bind, Except.bind] at h
          | ok restBuf =>
              rw [hr, ok_bind_eq] at h
              rcases h with ⟨⟩
              simp [List.length_append,
                generateFrame_length env g fr _ gb.1 gb.2 hf, ih gb.1 restBuf hr]

/-- **C5.**  Whenever `generateSound` returns a buffer, that buffer has
exactly `round(d_1 * fs) + ... + round(d_k * fs)` samples — the sum of the
per-frame lengths `Math.round(duration * sampleRate)` — and it is (by the
definition of `generateSoundGo`) the concatenation of the per-frame
sub-buffers, each filled by one `generateFrame` call on the contiguous
slice reserved for it. -/
theorem c5_generateSound_length (env : MathEnv) (mp : MainParms) (fo : ℚ)
    (frames : List FpRef) (out : List JsNum)
    (h : generateSound env mp fo frames = .ok out) :
    out.length = (frames.map
      (fun fr => jsLenNat (frameLen mp.sampleRate fr.parms))).sum := by
  unfold generateSound at h
  cases hg : mkGenerator env mp fo with
  | error e =>
      rw [hg] at h
      simp [Bind.bind, Except.bind] at h
  | ok g0 =>
      rw [hg, ok_bind_eq] at h
      exact generateSoundGo_length env mp frames g0 out h

/-- Witness for C5: a 2-sample frame followed by a 1-sample frame at
10 kHz yields a 3-sample buffer (`round(0.0002*10000) + round(0.0001*10000)
= 3`). -/
theorem c5_witness :
    generateSound envT mpT 0
      [⟨1, fpT⟩, ⟨2, { fpT with duration := .fin (1/10000) }⟩] =
      .ok [.fin 0, .fin 0, .fin 0] ∧
    ([JsNum.fin 0, .fin 0, .fin 0]).length =
      (([⟨1, fpT⟩, ⟨2, { fpT with duration := .fin (1/10000) }⟩] :
          List FpRef).map
        (fun fr => jsLenNat (frameLen mpT.sampleRate fr.parms))).sum :=
  ⟨by decide,
   c5_generateSound_length envT mpT 0
     [⟨1, fpT⟩, ⟨2, { fpT with duration := .fin (1/10000) }⟩]
     [.fin 0, .fin 0, .fin 0] (by decide)⟩

/-! ## Claim C7 -/

theorem isFiniteB_exists {x : JsNum} (h : x.isFiniteB = true) :
    ∃ q, x = .fin q := by
  cases x with
  | fin q => exact ⟨q, rfl⟩
  | nan => simp [JsNum.isFiniteB] at h
  | posInf => simp [JsNum.isFiniteB] at h
  | negInf => simp [JsNum.isFiniteB] at h

/-- An anti-resonator in active mode with all coefficients zero and finite
delay state emits 0 on every finite input, forever. -/
theorem AntiResonator.zero_coeff_run :
    ∀ (xs : List JsNum) (f : AntiResonator),
      f.a = .fin 0 → f.b = .fin 0 → f.c = .fin 0 →
      f.passthrough = false → f.muted = false →
      f.x1.isFiniteB = true → f.x2.isFiniteB = true →
      (∀ x ∈ xs, x.isFiniteB = true) →
      (f.run xs).2 = List.replicate xs.length (.fin 0) := by
  intro xs
  induction xs with
  | nil =>
      intro f _ _ _ _ _ _ _ _
      rfl
  | cons x rest ih =>
      intro f ha hb hc hp hm h1 h2 hxs
      obtain ⟨qx, hqx⟩ := isFiniteB_exists (hxs x (by simp))
      obtain ⟨q1, hq1⟩ := isFiniteB_exists h1
      obtain ⟨q2, hq2⟩ := isFiniteB_exists h2
      have hstep : f.step x = ({ f with x2 := f.x1, x1 := x }, .fin 0) := by
        unfold AntiResonator.step
        rw [hp, hm]
        simp only [Bool.false_eq_true, if_false]
        rw [ha, hb, hc, hqx, hq1, hq2]
        simp [jmul, jadd]
      unfold AntiResonator.run
      rw [hstep]
      have htail := ih { f with x2 := f.x1, x1 := x } ha hb hc hp hm
        (by rw [hqx]; rfl) (by rw [hq1]; rfl)
        (fun y hy => hxs y (by simp [hy]))
      simp [htail, List.replicate_succ]

/-- **C7 (amended).**  For an anti-resonator `set(f, bw)` call that passes
validation: (1) when the derived `a0 = 1 - b0 - c0` equals 0, the
coefficients are zeroed but the mode flags are left untouched, so the
filter emits 0 on every subsequent step only if it was already in active
mode (and its delay state is finite; a filter in passthrough mode keeps
passing its input through — see the counterexample); (2) when `a0 ≠ 0`
the coefficients become `a = 1/a0`, `b = -b0/a0`, `c = -c0/a0` and the
mode becomes active; (3) an active filter computes
`y[n] = a*x[n] + b*x[n-1] + c*x[n-2]` and shifts its delay line. -/
theorem c7_antiResonator_degenerate_and_formula (env : MathEnv) :
    (∀ (f0 f1 : AntiResonator) (freq bw : JsNum),
      f0.set env freq bw = .ok f1 →
      AntiResonator.interA0 env f0.sampleRate freq bw = .fin 0 →
      f0.passthrough = false → f0.muted = false →
      f0.x1.isFiniteB = true → f0.x2.isFiniteB = true →
      ∀ xs : List JsNum, (∀ x ∈ xs, x.isFiniteB = true) →
        (f1.run xs).2 = List.replicate xs.length (.fin 0)) ∧
    (∀ (f0 f1 : AntiResonator) (freq bw : JsNum),
      f0.set env freq bw = .ok f1 →
      jeqb (AntiResonator.interA0 env f0.sampleRate freq bw) (.fin 0) = false →
      f1.a = jdiv (.fin 1) (AntiResonator.interA0 env f0.sampleRate freq bw) ∧
      f1.b = jdiv (jneg (AntiResonator.interB0 env f0.sampleRate freq bw))
               (AntiResonator.interA0 env f0.sampleRate freq bw) ∧
      f1.c = jdiv (jneg (AntiResonator.interC0 env f0.sampleRate bw))
               (AntiResonator.interA0 env f0.sampleRate freq bw) ∧
      f1.passthrough = false ∧ f1.muted = false) ∧
    (∀ (f : AntiResonator) (x : JsNum),
      f.passthrough = false → f.muted = false →
      f.step x = ({ f with x2 := f.x1, x1 := x },
        jadd (jadd (jmul f.a x) (jmul f.b f.x1)) (jmul f.c f.x2))) := by
  refine ⟨?_, ?_, ?_⟩
  · intro f0 f1 freq bw hset ha0 hp hm h1 h2 xs hxs
    unfold AntiResonator.set at hset
    split_ifs at hset with hg
    dsimp only at hset
    rw [ha0, show (JsNum.fin (0:ℚ)).jeqb (.fin 0) = true from by
      simp [jeqb]] at hset
    simp only [eq_self_iff_true, if_true] at hset
    rcases hset with ⟨⟩
    exact AntiResonator.zero_coeff_run xs _ rfl rfl rfl hp hm h1 h2 hxs
  · intro f0 f1 freq bw hset ha0 
    unfold AntiResonator.set at hset
    split_ifs at hset with hg
    dsimp only at hset
    rw [ha0] at hset
    simp only [Bool.false_eq_true, if_false] at hset
    rcases hset with ⟨⟩
    exact ⟨rfl, rfl, rfl, rfl, rfl⟩
  · intro f x hp hm
    unfold AntiResonator.step
    rw [hp, hm]
    rfl

/-- Oracle environment producing the degenerate anti-resonator case:
`exp` of a tiny negative argument and `cos` of a tiny argument both round
to exactly 1 in IEEE doubles, giving `r = 1`, `b0 = 2`, `c0 = -1` and
`a0 = 1 - 2 + 1 = 0` (reachable in JavaScript with denormal `f` and
`bw`). -/
def envC7 : MathEnv := { envT with exp := fun _ => 1, cos := fun _ => 1 }

/-- The anti-resonator produced by the degenerate `set` on the active
filter `arT`. -/
def arC7 : AntiResonator := { arT with a := .fin 0, b := .fin 0, c := .fin 0 }

/-- **C7 is false as stated**: a freshly constructed anti-resonator is in
passthrough mode; a `set(f, bw)` call whose derived `a0` is 0 takes the
degenerate branch, which zeroes the coefficients but leaves the
passthrough flag set — the subsequent step emits its input 5, not 0. -/
theorem c7_counterexample :
    AntiResonator.interA0 envC7 (.fin 10000) (.fin 1) (.fin 1) = .fin 0 ∧
    (AntiResonator.init (.fin 10000)).set envC7 (.fin 1) (.fin 1) =
      .ok { AntiResonator.init (.fin 10000) with
            a := .fin 0, b := .fin 0, c := .fin 0 } ∧
    (({ AntiResonator.init (.fin 10000) with
        a := .fin 0, b := .fin 0, c := .fin 0 } : AntiResonator).step
      (.fin 5)).2 = .fin 5 ∧
    (({ AntiResonator.init (.fin 10000) with
        a := .fin 0, b := .fin 0, c := .fin 0 } : AntiResonator).step
      (.fin 5)).2 ≠ .fin 0 := by
  refine ⟨by decide, by decide, by decide, by decide⟩

/-- Witness for C7 (amended): the same degenerate `set` applied to the
*active* filter `arT` yields a filter that emits 0 on the finite inputs
5 and 7. -/
theorem c7_witness :
    (arT.set envC7 (.fin 1) (.fin 1) = .ok arC7 ∧
      AntiResonator.interA0 envC7 arT.sampleRate (.fin 1) (.fin 1) =
        .fin 0 ∧
      arT.passthrough = false ∧ arT.muted = false) ∧
    (arC7.run [.fin 5, .fin 7]).2 = List.replicate 2 (.fin 0) :=
  ⟨⟨by decide, by decide, rfl, rfl⟩,
   (c7_antiResonator_degenerate_and_formula envC7).1 arT arC7 (.fin 1)
     (.fin 1) (by decide) (by decide) rfl rfl rfl rfl
     [.fin 5, .fin 7] (by decide)⟩

/-! ## Claim C8 -/

/-- **C8 (amended).**  A glottal source kind outside the enumeration
{impulsive = 0, natural = 1, noise = 2} raises
`UnknownGlottalSourceKind` at generator construction (for a positive,
finite sample rate, so that the output low-pass configuration preceding
the guard succeeds); at period start there is no guard at all:
`startGlottalSourcePeriod` silently does nothing for every kind outside
{impulsive, natural}, including unknown kinds (which, because of the
construction guard, can never reach a period start). -/
theorem c8_unknown_kind_guard (env : MathEnv) (mp : MainParms) (fo : ℚ)
    (fsr : ℚ) (g : GenState)
    (hrate : mp.sampleRate = .fin fsr) (hfs : 0 < fsr)
    (hk : 3 ≤ mp.glottalSourceType) (hgk : 2 ≤ g.mParms.glottalSourceType) :
    mkGenerator env mp fo = .error .undefinedGlottalSourceType ∧
    g.startGlottalSourcePeriod env = .ok g := by
  constructor
  · unfold mkGenerator
    have hset : ∃ X, (Resonator.init mp.sampleRate).set env (.fin 0)
        (jdiv mp.sampleRate (.fin 2)) (.fin 1) = .ok X := by
      unfold Resonator.set
      simp only [Resonator.init]
      rw [hrate]
      have h2 : jdiv (JsNum.fin fsr) (.fin 2) = .fin (fsr / 2) := by
        norm_num [jdiv]
      rw [h2]
      have hguard : (jlt (JsNum.fin 0) (.fin 0) ||
          jge (.fin 0) (.fin (fsr / 2)) || jle (.fin (fsr / 2)) (.fin 0) ||
          jle (.fin 1) (.fin 0) || !(JsNum.fin 0).isFiniteB ||
          !(JsNum.fin (fsr / 2)).isFiniteB ||
          !(JsNum.fin 1).isFiniteB) = false := by
        simp only [jlt, jge, jle, isFiniteB, Bool.not_true, Bool.or_false]
        have hA : ¬ (0:ℚ) < 0 := lt_irrefl 0
        have hB : ¬ (fsr / 2 ≤ (0:ℚ)) := by rw [not_le]; positivity
        have hD : ¬ ((1:ℚ) ≤ 0) := by norm_num
        simp [hA, hB, hD]
      simp only [hguard, Bool.false_eq_true, if_false]
      exact ⟨_, rfl⟩
    obtain ⟨X, hX⟩ := hset
    dsimp only
    rw [hX, ok_bind_eq]
    obtain ⟨m, hm⟩ : ∃ m, mp.glottalSourceType = m + 3 :=
      ⟨mp.glottalSourceType - 3, by omega⟩
    rw [hm]
    rfl
  · unfold GenState.startGlottalSourcePeriod
    obtain ⟨m, hm⟩ : ∃ m, g.mParms.glottalSourceType = m + 2 :=
      ⟨g.mParms.glottalSourceType - 2, by omega⟩
    rw [hm]
    rfl

/-- A generator state whose main parameters carry the out-of-range kind 3
(unreachable through the constructor, which rejects it). -/
def genC8 : GenState :=
  { genT with mParms := { sampleRate := .fin 10000, glottalSourceType := 3 } }

/-- **C8 is false as stated**: kind 3 does raise at construction, but at
period start `startGlottalSourcePeriod` raises nothing — it returns the
state unchanged, contradicting "the guard exists at both places". -/
theorem c8_counterexample :
    mkGenerator envT { sampleRate := .fin 10000, glottalSourceType := 3 } 0 =
      .error .undefinedGlottalSourceType ∧
    GenState.startGlottalSourcePeriod envT genC8 = .ok genC8 := by
  refine ⟨by decide, by decide⟩

/-- Witness for C8 (amended) at the concrete kind 3. -/
theorem c8_witness :
    mkGenerator envT { sampleRate := .fin 20, glottalSourceType := 5 } 0 =
      .error .undefinedGlottalSourceType ∧
    GenState.startGlottalSourcePeriod envT
      { genT with mParms := { sampleRate := .fin 20,
                              glottalSourceType := 5 } } =
      .ok { genT with mParms := { sampleRate := .fin 20,
                                  glottalSourceType := 5 } } := by
  have h := c8_unknown_kind_guard envT
    { sampleRate := .fin 20, glottalSourceType := 5 } 0 20
    { genT with mParms := { sampleRate := .fin 20,
                            glottalSourceType := 5 } }
    rfl (by norm_num) (by norm_num) (by norm_num)
  exact h
